import Mathlib

/-!
# Formal model of the quantum-navigator core

A shallow embedding, in Lean 4, of the parts of the `quantum-navigator`
repository that the specification's claims are about:

* the neutral-atom IR schema and the physics models
  (`backend/drivers/neutral_atom/schema.py`),
* the physics-constraint validator
  (`backend/drivers/neutral_atom/validator.py`),
* the spectral AOD router (`backend/optimizer.py`),
* the benchmark telemetry simulator (`backend/server.py`).

Conventions used throughout:

* Python floats are modelled as exact rationals (`ℚ`); the simulator in
  `server.py`, whose per-cycle arithmetic involves `math.exp`, is modelled
  over the reals (`ℝ`).  `round(x, n)` is modelled as
  `round (x * 10 ^ n) / 10 ^ n`; Python rounds half to even while Mathlib's
  `round` rounds half up — the two agree except exactly at half-ulp points,
  and no statement below depends on a half-ulp point.
* Python dicts keyed by atom id are modelled as insertion-ordered
  association lists (`List (ℕ × α)`), with `dictUpdate` replacing an
  existing key in place and appending a fresh key, exactly like `d[k] = v`.
* The source compares Euclidean norms `math.sqrt(dx**2 + dy**2)` against
  nonnegative thresholds.  To keep the validator's branch structure
  executable over `ℚ`, every such comparison is embedded as the equivalent
  comparison of squared magnitudes (`sqrt s < t ↔ s < t²` for `0 ≤ s`,
  `0 < t`; the bridging lemmas `sqrt_cmp_lt` and `sqrt_cmp_gt` below record
  the equivalence).  The two reported metrics that are genuinely
  irrational-valued (`total_movement_distance`, the sum of the norms, and
  `estimated_decoherence_cost`) are kept in `ℝ` with `Real.sqrt`.
-/

namespace QuantumNavigator

/-! ## Schema enums and entities (`schema.py`) -/

/-- Role of an atom trap (`schema.py:29-43`). -/
inductive TrapRole where
  | SLM
  | AOD
  | BUS
  | STORAGE
deriving DecidableEq, Repr

/-- Functional zone kinds (`schema.py:71-88`). -/
inductive ZoneType where
  | STORAGE
  | ENTANGLEMENT
  | READOUT
  | PREPARATION
  | RESERVOIR
  | BUFFER
deriving DecidableEq, Repr

/-- Single atom position in the register (`schema.py:95-104`).
Pydantic enforces `id ≥ 0`, which the `ℕ` type carries. -/
structure AtomPosition where
  id : ℕ
  x : ℚ
  y : ℚ
  role : TrapRole
  aod_row : Option ℤ
  aod_col : Option ℤ
deriving DecidableEq, Repr

/-- A functional zone (`schema.py:107-147`).  The pydantic bound check
`x_min < x_max ∧ y_min < y_max` happens at construction and is not needed
by any claim, so it is not carried as a field. -/
structure ZoneDefinition where
  zone_id : String
  zone_type : ZoneType
  x_min : ℚ
  x_max : ℚ
  y_min : ℚ
  y_max : ℚ
  shielding_light : Bool
deriving DecidableEq, Repr

/-- `ZoneDefinition.contains_point` (`schema.py:141-143`): closed rectangle. -/
def ZoneDefinition.contains_point (z : ZoneDefinition) (x y : ℚ) : Prop :=
  z.x_min ≤ x ∧ x ≤ z.x_max ∧ z.y_min ≤ y ∧ y ≤ z.y_max

instance (z : ZoneDefinition) (x y : ℚ) : Decidable (z.contains_point x y) := by
  unfold ZoneDefinition.contains_point
  infer_instance

/-! ### Python loop helpers

Structural-recursion forms of first-match, filtering and mapping loops, used
in place of `List.find?` / `List.filter` / `List.filterMap` so that every
branch is an `ite` on a decidable proposition. -/

/-- First element satisfying `p`, as in a Python generator or `dict` lookup. -/
def pyFind? (p : α → Prop) [DecidablePred p] : List α → Option α
  | [] => none
  | a :: rest => if p a then some a else pyFind? p rest

/-- The elements satisfying `p`, as in a Python list comprehension. -/
def pyFilter (p : α → Prop) [DecidablePred p] : List α → List α
  | [] => []
  | a :: rest => if p a then a :: pyFilter p rest else pyFilter p rest

/-- A comprehension with a per-element guard producing `Option`s. -/
def pyFilterMap (f : α → Option β) : List α → List β
  | [] => []
  | a :: rest =>
      match f a with
      | some b => b :: pyFilterMap f rest
      | none => pyFilterMap f rest

/-- Waveform specification (`schema.py:334-359`).  The validator reads only
`duration`; the shape tag and shape-specific parameters never reach it, so
only the duration is modelled. -/
structure WaveformSpec where
  duration : ℚ
deriving DecidableEq, Repr

/-- The atom register (`schema.py:257-281`).  `layout_type` is never read by
the validator and is omitted. -/
structure NeutralAtomRegister where
  min_atom_distance : ℚ
  blockade_radius : ℚ
  atoms : List AtomPosition
  zones : Option (List ZoneDefinition)
deriving DecidableEq, Repr

/-- `NeutralAtomRegister.get_zone_at_position` (`schema.py:307-314`):
first zone containing the point, in list order. -/
def NeutralAtomRegister.get_zone_at_position (r : NeutralAtomRegister)
    (x y : ℚ) : Option ZoneDefinition :=
  match r.zones with
  | none => none
  | some zs => pyFind? (fun z => z.contains_point x y) zs

/-- `NeutralAtomRegister.get_zones_by_type` (`schema.py:323-327`). -/
def NeutralAtomRegister.get_zones_by_type (r : NeutralAtomRegister)
    (t : ZoneType) : List ZoneDefinition :=
  match r.zones with
  | none => []
  | some zs => pyFilter (fun z => z.zone_type = t) zs

/-- The operation sum type (`schema.py:366-537`, union at `schema.py:587-595`).
Each constructor keeps the fields the validator and the temporal-overlap
pass read.  Pydantic construction guarantees `duration > 0` where present;
theorems that need this carry it as a hypothesis. -/
inductive NeutralAtomOperation where
  | globalPulse (start_time : ℚ) (omega : WaveformSpec)
      (detuning : Option WaveformSpec) (phase : ℚ)
  | localDetuning (start_time : ℚ) (target_atoms : List ℕ)
      (detuning : WaveformSpec) (weights : Option (List ℚ))
  | shuttleMove (atom_ids : List ℕ) (start_time : ℚ) (duration : ℚ)
      (target_positions : List (ℚ × ℚ))
  | rydbergGate (control_atom : ℕ) (target_atom : ℕ) (start_time : ℚ)
  | measurement (atom_ids : List ℕ) (start_time : ℚ)
  | shieldingEvent (start_time : ℚ) (duration : ℚ)
  | reloadOperation (start_time : ℚ) (target_slots : List ℕ)
      (loading_duration_ns : ℚ)
deriving DecidableEq, Repr

/-- The `start_time` attribute shared by every operation case. -/
def NeutralAtomOperation.start_time : NeutralAtomOperation → ℚ
  | .globalPulse st _ _ _ => st
  | .localDetuning st _ _ _ => st
  | .shuttleMove _ st _ _ => st
  | .rydbergGate _ _ st => st
  | .measurement _ st => st
  | .shieldingEvent st _ => st
  | .reloadOperation st _ _ => st

/-- The job (`schema.py:627-672`).  The validator reads only the register and
the operation list; the metadata, device and simulation configs are omitted. -/
structure NeutralAtomJob where
  register : NeutralAtomRegister
  operations : List NeutralAtomOperation
deriving DecidableEq, Repr

/-! ## Physics models (`schema.py`) -/

/-- `HeatingModel.calculate_nvib_increase` (`schema.py:180-197`):
`heating_coeff * distance * velocity`.  The Python default
`heating_coeff = 0.01` is passed explicitly at every call site. -/
def HeatingModel.calculate_nvib_increase (distance_um velocity_um_per_us
    heating_coeff : ℚ) : ℚ :=
  heating_coeff * distance_um * velocity_um_per_us

/-- `HeatingModel.estimate_fidelity_loss` (`schema.py:199-210`):
`min(1.0, degradation_rate * delta_nvib)`.  Python default
`degradation_rate = 0.008`. -/
def HeatingModel.estimate_fidelity_loss (delta_nvib degradation_rate : ℚ) : ℚ :=
  min 1 (degradation_rate * delta_nvib)

/-- `AtomLossModel.calculate_loss_probability` (`schema.py:234-254`):
`min(1.0, base_rate + heating_factor * max(0, nvib - nvib_threshold))`.
Python defaults: threshold `18.0`, base `0.001`, factor `0.005`. -/
def AtomLossModel.calculate_loss_probability (nvib nvib_threshold base_rate
    heating_factor : ℚ) : ℚ :=
  min 1 (base_rate + heating_factor * max 0 (nvib - nvib_threshold))

/-- The formula §4.1 of the specification gives for the fidelity loss,
written from the spec's words (`min(1, α·n_vib)` with `α = 0.008`), for
comparison with the source definition. -/
def spec_fidelity_loss (n_vib : ℚ) : ℚ :=
  min 1 ((8 : ℚ) / 1000 * n_vib)

/-! ## Insertion-ordered dictionaries

Python dicts keyed by atom id, as used for `current_positions` in
`validator.py`.  Iteration order is insertion order; assigning to an
existing key keeps its position. -/

/-- `d[k] = v` on an insertion-ordered dict. -/
def dictUpdate : List (ℕ × α) → ℕ → α → List (ℕ × α)
  | [], k, v => [(k, v)]
  | (k', v') :: rest, k, v =>
      if k' = k then (k, v) :: rest else (k', v') :: dictUpdate rest k v

/-- `d.get(k)` on an insertion-ordered dict. -/
def dictGet? (m : List (ℕ × α)) (k : ℕ) : Option α :=
  (pyFind? (fun p => p.1 = k) m).map (fun p => p.2)

/-- `d.get(k, dflt)` on an insertion-ordered dict. -/
def dictGetD (m : List (ℕ × α)) (k : ℕ) (dflt : α) : α :=
  (dictGet? m k).getD dflt

/-- `dict(zip(keys, values))`: later bindings of a repeated key win. -/
def dictOfZip (keys : List ℕ) (values : List α) : List (ℕ × α) :=
  (keys.zip values).foldl (fun m p => dictUpdate m p.1 p.2) []

/-- The `current_positions` map of the validator walk. -/
abbrev PosMap := List (ℕ × (ℚ × ℚ))

/-- Squared Euclidean distance: the quantity under the `math.sqrt` in every
distance computation of `validator.py`. -/
def dist2 (p q : ℚ × ℚ) : ℚ :=
  (p.1 - q.1) ^ 2 + (p.2 - q.2) ^ 2

/-! ## Validation results (`validator.py:94-117`) -/

/-- Severity grades of `ValidationWarning` (`validator.py:99`). -/
inductive Severity where
  | low
  | medium
  | high
deriving DecidableEq, Repr

/-- The warning codes `validator.py` emits (the `code=` string of each
`ValidationWarning` construction). -/
inductive WarningCode where
  | NEAR_COLLISION
  | MISSING_AOD_GRID
  | HIGH_VELOCITY
  | HEATING_HIGH_NVIB
  | HEATING_MODERATE
  | ATOM_LOSS_RISK
  | WEAK_BLOCKADE
  | PULSE_IN_SHIELDED_ZONE
  | PULSE_IN_STORAGE_ZONE
  | MEASUREMENT_OUTSIDE_READOUT
  | CONCURRENT_SHUTTLES
deriving DecidableEq, Repr

/-- `ValidationWarning` (`validator.py:94-100`).  The free-form `message`
string is replaced by `atoms`, the list of atom ids the message interpolates
(empty where the message names none). -/
structure ValidationWarning where
  code : WarningCode
  severity : Severity
  operation_index : Option ℕ
  atoms : List ℕ
deriving DecidableEq, Repr

/-- The hard errors of `validator.py:45-87` as tagged variants.  Each carries
the atom ids its message interpolates.  `notAodAtom` is the bare
`PhysicsConstraintError("Atom ... is not an AOD atom - cannot shuttle SLM
atoms")` raised at `validator.py:324-327`. -/
inductive PhysicsConstraintErr where
  | collision (id1 id2 : ℕ)
  | velocityExceeded (atom_id : ℕ)
  | blockadeDistance (control target : ℕ)
  | topologicalViolationRow
  | topologicalViolationColumn
  | notAodAtom (atom_id : ℕ)
deriving DecidableEq, Repr

/-- `ValidationResult` (`validator.py:103-111`).  `total_movement_distance`
and `estimated_decoherence_cost` are genuine real numbers (sums of Euclidean
norms); everything else is exact. -/
structure ValidationResult where
  is_valid : Bool
  errors : List PhysicsConstraintErr
  warnings : List ValidationWarning
  estimated_decoherence_cost : ℝ
  total_movement_distance : ℝ

/-! ## The validator (`validator.py:124-704`) -/

/-- `PulserValidator` construction state (`validator.py:143-159`).
`strict_mode` is stored exactly as the source stores it. -/
structure PulserValidator where
  max_aod_velocity : ℚ
  awg_bandwidth : ℚ
  strict_mode : Bool
deriving DecidableEq, Repr

/-- The inner pair loop of `_validate_register_geometry`
(`validator.py:224-239`): atom `a1` against each later atom.  The branch
`dist < min_dist` is embedded as `dist2 < min_dist²` and
`dist < 1.1 * min_dist` as `dist2 < (1.1 * min_dist)²` (see `sqrt_cmp_lt`). -/
def geometryPairAgainst (min_dist : ℚ) (a1 : AtomPosition) :
    List AtomPosition → List PhysicsConstraintErr × List ValidationWarning
  | [] => ([], [])
  | a2 :: rest =>
      let d2 := dist2 (a1.x, a1.y) (a2.x, a2.y)
      let (es, ws) := geometryPairAgainst min_dist a1 rest
      if d2 < min_dist ^ 2 then
        (.collision a1.id a2.id :: es, ws)
      else if d2 < (11 / 10 * min_dist) ^ 2 then
        (es, { code := .NEAR_COLLISION, severity := .medium,
               operation_index := none, atoms := [a1.id, a2.id] } :: ws)
      else (es, ws)

/-- The outer pair loop of `_validate_register_geometry`
(`validator.py:224-239`): all pairs `(i, j)` with `i < j`, in order. -/
def geometryPairs (min_dist : ℚ) :
    List AtomPosition → List PhysicsConstraintErr × List ValidationWarning
  | [] => ([], [])
  | a1 :: rest =>
      let here := geometryPairAgainst min_dist a1 rest
      let there := geometryPairs min_dist rest
      (here.1 ++ there.1, here.2 ++ there.2)

/-- `_validate_register_geometry` (`validator.py:212-251`): pairwise
distances, then the AOD-grid presence warnings. -/
def validate_register_geometry (register : NeutralAtomRegister) :
    List PhysicsConstraintErr × List ValidationWarning :=
  let pairRes := geometryPairs register.min_atom_distance register.atoms
  let aod_atoms := pyFilter (fun a => a.role = TrapRole.AOD) register.atoms
  let gridWarns := pyFilterMap (fun a =>
    if a.aod_row = none ∨ a.aod_col = none then
      some { code := WarningCode.MISSING_AOD_GRID, severity := .high,
             operation_index := none, atoms := [a.id] }
    else none) aod_atoms
  (pairRes.1, pairRes.2 ++ gridWarns)

/-- A stable sort by a rational key, modelling Python's (stable) `sorted`
with a `key=` function (`validator.py:453-470`): an element is inserted
after every earlier element whose key is `≤` its own. -/
def stableInsert (key : α → ℚ) (a : α) : List α → List α
  | [] => [a]
  | b :: l => if key b ≤ key a then b :: stableInsert key a l else a :: b :: l

/-- Stable sort by key (see `stableInsert`). -/
def sortByKey (key : α → ℚ) (l : List α) : List α :=
  l.foldl (fun acc a => stableInsert key a acc) []

/-- `_check_topological_constraint` (`validator.py:427-485`). Sorting is by
physical coordinate, not by the stored grid indices, exactly as in the
source. -/
def check_topological_constraint (atom_ids : List ℕ)
    (target_positions : List (ℚ × ℚ)) (register : NeutralAtomRegister) :
    Option PhysicsConstraintErr :=
  -- aod_atoms = {a.id: a for a in register.atoms if a.role == TrapRole.AOD}
  -- atoms_with_grid: moved atoms that are AOD and carry both grid indices
  let atoms_with_grid := pyFilterMap (fun aid =>
    (pyFind? (fun a => a.id = aid ∧ a.role = TrapRole.AOD)
        register.atoms).bind
      (fun a => if a.aod_row ≠ none ∧ a.aod_col ≠ none then some a else none))
    atom_ids
  if atoms_with_grid.length < 2 then none
  else
    let target_map := dictOfZip atom_ids target_positions
    let get_target_y := fun (a : AtomPosition) =>
      match dictGet? target_map a.id with
      | some t => t.2
      | none => a.y
    let get_target_x := fun (a : AtomPosition) =>
      match dictGet? target_map a.id with
      | some t => t.1
      | none => a.x
    let initial_row_order := sortByKey (fun a => a.y) atoms_with_grid
    let initial_col_order := sortByKey (fun a => a.x) atoms_with_grid
    let target_row_order := sortByKey get_target_y atoms_with_grid
    let target_col_order := sortByKey get_target_x atoms_with_grid
    if (initial_row_order.map (fun a => a.id) =
        target_row_order.map (fun a => a.id) : Prop) then
      if (initial_col_order.map (fun a => a.id) =
          target_col_order.map (fun a => a.id) : Prop) then none
      else some .topologicalViolationColumn
    else some .topologicalViolationRow

/-- Output of the per-atom loop of `_validate_shuttle`. -/
structure ShuttleAtomsOut where
  errors : List PhysicsConstraintErr
  warnings : List ValidationWarning
  total_movement : ℝ
  decoherence_cost : ℝ

/-- The per-atom loop of `_validate_shuttle` (`validator.py:322-401`).

Branch comparisons are embedded over `ℚ` on squared magnitudes:
`velocity > vlim` is `dist / du > vlim`, i.e. `dist2 > (vlim * du)²` for
`du > 0` (for `du ≤ 0` the source sets `velocity = ∞`, which exceeds every
limit; pydantic rules `du ≤ 0` out).  The heating increment
`0.01 * dist * velocity = 0.01 * dist2 / du` is exact over `ℚ` because
`dist * dist = dist2`; for `du ≤ 0` the source value is not a finite float
and the embedding uses `0` — unreachable for schema-valid jobs.
`self.max_aod_velocity` is the only validator attribute the loop reads, so
it is passed alone. -/
noncomputable def shuttleAtomsLoop (max_aod_velocity : ℚ) (register : NeutralAtomRegister)
    (current_positions : PosMap) (op_index : ℕ) (duration : ℚ) :
    List (ℕ × (ℚ × ℚ)) → ShuttleAtomsOut
  | [] => ⟨[], [], 0, 0⟩
  | (atom_id, target_pos) :: rest =>
      let restOut := shuttleAtomsLoop max_aod_velocity register
        current_positions op_index duration rest
      -- if atom_id not in aod_atoms: error; continue
      if pyFind? (fun a => a.id = atom_id ∧ a.role = TrapRole.AOD)
          register.atoms = none then
        { restOut with errors := .notAodAtom atom_id :: restOut.errors }
      else
        let start_pos := dictGetD current_positions atom_id (0, 0)
        let d2 := dist2 target_pos start_pos
        let duration_us := duration / 1000
        -- velocity = dist / duration_us (∞ if duration_us ≤ 0)
        let velocityErr : Bool :=
          if 0 < duration_us then
            decide ((max_aod_velocity * duration_us) ^ 2 < d2) else true
        let velocityWarn : Bool :=
          if 0 < duration_us then
            decide ((8 / 10 * max_aod_velocity * duration_us) ^ 2 < d2)
          else true
        let velErrs :=
          if velocityErr then [PhysicsConstraintErr.velocityExceeded atom_id]
          else []
        let velWarns :=
          if velocityErr then []
          else if velocityWarn then
            [{ code := WarningCode.HIGH_VELOCITY, severity := .medium,
               operation_index := some op_index, atoms := [atom_id] }]
          else []
        -- delta_nvib = HeatingModel.calculate_nvib_increase(dist, velocity)
        --            = 0.01 * dist * (dist / duration_us) = 0.01 * d2 / du
        let delta_nvib : ℚ := if 0 < duration_us then
          1 / 100 * d2 / duration_us else 0
        let heatWarns :=
          if 18 < delta_nvib then
            [{ code := WarningCode.HEATING_HIGH_NVIB, severity := .high,
               operation_index := some op_index, atoms := [atom_id] }]
          else if 10 < delta_nvib then
            [{ code := WarningCode.HEATING_MODERATE, severity := .medium,
               operation_index := some op_index, atoms := [atom_id] }]
          else []
        let p_loss := AtomLossModel.calculate_loss_probability delta_nvib 18
          (1 / 1000) (5 / 1000)
        let lossWarns :=
          if 5 / 100 < p_loss then
            [{ code := WarningCode.ATOM_LOSS_RISK,
               severity := if 1 / 10 < p_loss then Severity.high else .medium,
               operation_index := some op_index, atoms := [atom_id] }]
          else []
        -- total_movement += dist; decoherence += dist * (velocity / vmax) * k
        let dist : ℝ := Real.sqrt (d2 : ℝ)
        let velocity : ℝ := dist / (duration_us : ℝ)
        { errors := velErrs ++ restOut.errors
          warnings := velWarns ++ heatWarns ++ lossWarns ++ restOut.warnings
          total_movement := dist + restOut.total_movement
          decoherence_cost := dist * (velocity / (max_aod_velocity : ℝ)) *
            (1 / 100) + restOut.decoherence_cost }

/-- The post-move pairwise collision check of `_validate_shuttle`
(`validator.py:409-423`): the double loop over `new_positions.items()` with
the `id1 >= id2` skip, in iteration order. -/
def shuttleCollisionCheck (min_dist : ℚ) (new_positions : PosMap) :
    List PhysicsConstraintErr :=
  new_positions.foldr (fun p1 acc =>
    (pyFilterMap (fun p2 =>
      if p2.1 ≤ p1.1 then none
      else if dist2 p1.2 p2.2 < min_dist ^ 2 then
        some (PhysicsConstraintErr.collision p1.1 p2.1)
      else none) new_positions) ++ acc) []

/-- Output of a single operation's validation (`_validate_operation`). -/
structure OpOut where
  errors : List PhysicsConstraintErr
  warnings : List ValidationWarning
  movement : ℝ
  decoherence : ℝ

/-- `_validate_shuttle` (`validator.py:298-425`): per-atom checks, the
topological check, the post-move collision check. -/
noncomputable def validate_shuttle (max_aod_velocity : ℚ) (register : NeutralAtomRegister)
    (current_positions : PosMap) (op_index : ℕ) (atom_ids : List ℕ)
    (duration : ℚ) (target_positions : List (ℚ × ℚ)) : OpOut :=
  let perAtom := shuttleAtomsLoop max_aod_velocity register current_positions
    op_index duration (atom_ids.zip target_positions)
  -- if topo_error: errors.append(topo_error)
  let topoErrs :=
    (check_topological_constraint atom_ids target_positions register).toList
  let new_positions := (atom_ids.zip target_positions).foldl
    (fun m p => dictUpdate m p.1 p.2) current_positions
  let collErrs := shuttleCollisionCheck register.min_atom_distance
    new_positions
  { errors := perAtom.errors ++ topoErrs ++ collErrs
    warnings := perAtom.warnings
    movement := perAtom.total_movement
    decoherence := perAtom.decoherence_cost }

/-- `_validate_rydberg_gate` (`validator.py:487-533`).  `dist > blockade` is
embedded as `dist2 > blockade²`, `dist > 0.9 * blockade` as
`dist2 > (0.9 * blockade)²`, `dist < min_atom_distance` as
`dist2 < min_atom_distance²` (see `sqrt_cmp_gt`, `sqrt_cmp_lt`). -/
def validate_rydberg_gate (register : NeutralAtomRegister)
    (current_positions : PosMap) (op_index : ℕ)
    (control_atom target_atom : ℕ) :
    List PhysicsConstraintErr × List ValidationWarning :=
  match dictGet? current_positions control_atom,
        dictGet? current_positions target_atom with
  | some pos1, some pos2 =>
      let d2 := dist2 pos1 pos2
      let blockade := register.blockade_radius
      let blockErrs :=
        if blockade ^ 2 < d2 then
          [PhysicsConstraintErr.blockadeDistance control_atom target_atom]
        else []
      let blockWarns :=
        if blockade ^ 2 < d2 then []
        else if (9 / 10 * blockade) ^ 2 < d2 then
          [{ code := WarningCode.WEAK_BLOCKADE, severity := .high,
             operation_index := some op_index,
             atoms := [control_atom, target_atom] }]
        else []
      let collErrs :=
        if d2 < register.min_atom_distance ^ 2 then
          [PhysicsConstraintErr.collision control_atom target_atom]
        else []
      (blockErrs ++ collErrs, blockWarns)
  | _, _ => ([], [])

/-- `_validate_global_pulse_zones` (`validator.py:535-592`). -/
def validate_global_pulse_zones (register : NeutralAtomRegister)
    (current_positions : PosMap) (op_index : ℕ) :
    List PhysicsConstraintErr × List ValidationWarning :=
  match register.zones with
  | none => ([], [])
  | some _ =>
      if (register.get_zones_by_type ZoneType.STORAGE).isEmpty then ([], [])
      else
        let atoms_in_storage := pyFilterMap (fun atom =>
          let pos := dictGetD current_positions atom.id (atom.x, atom.y)
          match register.get_zone_at_position pos.1 pos.2 with
          | some zone =>
              if zone.zone_type = ZoneType.STORAGE then some atom.id else none
          | none => none) register.atoms
        if atoms_in_storage.isEmpty then ([], [])
        else
          let shielded_atoms := pyFilterMap (fun atom_id =>
            match dictGet? current_positions atom_id with
            | some pos =>
                match register.get_zone_at_position pos.1 pos.2 with
                | some zone =>
                    if zone.shielding_light = true then some atom_id else none
                | none => none
            | none => none) atoms_in_storage
          if ¬ shielded_atoms.isEmpty then
            ([], [{ code := .PULSE_IN_SHIELDED_ZONE, severity := .high,
                    operation_index := some op_index,
                    atoms := shielded_atoms }])
          else
            ([], [{ code := .PULSE_IN_STORAGE_ZONE, severity := .medium,
                    operation_index := some op_index,
                    atoms := atoms_in_storage }])

/-- `_validate_measurement_zones` (`validator.py:594-634`). -/
def validate_measurement_zones (register : NeutralAtomRegister)
    (current_positions : PosMap) (op_index : ℕ) (atom_ids : List ℕ) :
    List PhysicsConstraintErr × List ValidationWarning :=
  match register.zones with
  | none => ([], [])
  | some _ =>
      if (register.get_zones_by_type ZoneType.READOUT).isEmpty then ([], [])
      else
        let atoms_outside_readout := pyFilterMap (fun atom_id =>
          match dictGet? current_positions atom_id with
          | some pos =>
              match register.get_zone_at_position pos.1 pos.2 with
              | some zone =>
                  if zone.zone_type ≠ ZoneType.READOUT then some atom_id
                  else none
              | none => some atom_id
          | none => none) atom_ids
        if atoms_outside_readout.isEmpty then ([], [])
        else
          ([], [{ code := .MEASUREMENT_OUTSIDE_READOUT, severity := .medium,
                  operation_index := some op_index,
                  atoms := atoms_outside_readout }])

/-- `_validate_operation` (`validator.py:253-296`): dispatch on the
operation tag.  Cases outside the `isinstance` chain contribute nothing. -/
noncomputable def validate_operation (max_aod_velocity : ℚ) (op : NeutralAtomOperation)
    (register : NeutralAtomRegister) (current_positions : PosMap)
    (op_index : ℕ) : OpOut :=
  match op with
  | .shuttleMove atom_ids _ duration target_positions =>
      validate_shuttle max_aod_velocity register current_positions op_index
        atom_ids duration target_positions
  | .rydbergGate control target _ =>
      let r := validate_rydberg_gate register current_positions op_index
        control target
      ⟨r.1, r.2, 0, 0⟩
  | .globalPulse _ _ _ _ =>
      let r := validate_global_pulse_zones register current_positions op_index
      ⟨r.1, r.2, 0, 0⟩
  | .measurement atom_ids _ =>
      let r := validate_measurement_zones register current_positions op_index
        atom_ids
      ⟨r.1, r.2, 0, 0⟩
  | _ => ⟨[], [], 0, 0⟩

/-- The duration the temporal-overlap pass derives from an operation
(`validator.py:645-655`): the `duration` attribute when present, else
`omega.duration`, else `detuning.duration`, else `0`.  `ReloadOperation`
stores its length in `loading_duration_ns`, which the `hasattr` chain does
not look at, so it contributes `0`. -/
def opOverlapDuration : NeutralAtomOperation → ℚ
  | .shuttleMove _ _ duration _ => duration
  | .shieldingEvent _ duration => duration
  | .globalPulse _ omega _ _ => omega.duration
  | .localDetuning _ _ detuning _ => detuning.duration
  | .rydbergGate _ _ _ => 0
  | .measurement _ _ => 0
  | .reloadOperation _ _ _ => 0

/-- Whether an operation is a `ShuttleMove` (the
`type(op).__name__ == "ShuttleMove"` filter at `validator.py:660`). -/
def isShuttle : NeutralAtomOperation → Bool
  | .shuttleMove _ _ _ _ => true
  | _ => false

/-- The inner loop of the overlap pass: one shuttle interval against every
later one (`validator.py:661-669`). -/
def overlapAgainst (s1 e1 : ℚ) : List (ℚ × ℚ × ℕ) → List ValidationWarning
  | [] => []
  | (s2, e2, i2) :: rest =>
      let ws := overlapAgainst s1 e1 rest
      if s1 < e2 ∧ s2 < e1 then
        { code := .CONCURRENT_SHUTTLES, severity := .high,
          operation_index := some i2, atoms := [] } :: ws
      else ws

/-- The outer loop of the overlap pass over shuttle intervals. -/
def overlapPairs : List (ℚ × ℚ × ℕ) → List ValidationWarning
  | [] => []
  | (s1, e1, _) :: rest => overlapAgainst s1 e1 rest ++ overlapPairs rest

/-- The interval-collection loop of `_check_temporal_overlaps`
(`validator.py:644-657`), with the running `enumerate` index. -/
def overlapIntervals : ℕ → List NeutralAtomOperation →
    List (ℚ × ℚ × ℕ × Bool)
  | _, [] => []
  | i, op :: rest =>
      let duration := opOverlapDuration op
      let restIvs := overlapIntervals (i + 1) rest
      if 0 < duration then
        (op.start_time, op.start_time + duration, i, isShuttle op) :: restIvs
      else restIvs

/-- `_check_temporal_overlaps` (`validator.py:636-671`). -/
def check_temporal_overlaps (operations : List NeutralAtomOperation) :
    List ValidationWarning :=
  let intervals := overlapIntervals 0 operations
  let shuttle_intervals := (pyFilter (fun q => q.2.2.2 = true) intervals).map
    (fun q => (q.1, q.2.1, q.2.2.1))
  overlapPairs shuttle_intervals

/-- Output of the operation walk inside `validate`. -/
structure WalkOut where
  errors : List PhysicsConstraintErr
  warnings : List ValidationWarning
  total_movement : ℝ
  decoherence_cost : ℝ
  positions : PosMap

/-- The main loop of `validate` (`validator.py:186-199`): validate each
operation at the current positions, then — only for `ShuttleMove`, and
unconditionally — commit every `(atom_id, target_pos)` pair into
`current_positions`. -/
noncomputable def validateWalk (max_aod_velocity : ℚ)
    (register : NeutralAtomRegister) :
    List NeutralAtomOperation → PosMap → ℕ → WalkOut
  | [], cur, _ => ⟨[], [], 0, 0, cur⟩
  | op :: rest, cur, i =>
      let opOut := validate_operation max_aod_velocity op register cur i
      let cur' := match op with
        | .shuttleMove atom_ids _ _ target_positions =>
            (atom_ids.zip target_positions).foldl
              (fun m p => dictUpdate m p.1 p.2) cur
        | _ => cur
      let restOut := validateWalk max_aod_velocity register rest cur' (i + 1)
      ⟨opOut.errors ++ restOut.errors, opOut.warnings ++ restOut.warnings,
        opOut.movement + restOut.total_movement,
        opOut.decoherence + restOut.decoherence_cost, restOut.positions⟩

/-- `PulserValidator.validate` (`validator.py:161-210`).  Note that the
stored `strict_mode` field is never read anywhere in the body — exactly as
in the source, where `self.strict_mode` is assigned in `__init__` and never
used again. -/
noncomputable def PulserValidator.validate (v : PulserValidator)
    (job : NeutralAtomJob) : ValidationResult :=
  let geom := validate_register_geometry job.register
  let current_positions : PosMap :=
    job.register.atoms.map (fun a => (a.id, (a.x, a.y)))
  let walk := validateWalk v.max_aod_velocity job.register job.operations
    current_positions 0
  let overlap_warnings := check_temporal_overlaps job.operations
  { is_valid := (geom.1 ++ walk.errors).isEmpty
    errors := geom.1 ++ walk.errors
    warnings := geom.2 ++ walk.warnings ++ overlap_warnings
    estimated_decoherence_cost := walk.decoherence_cost
    total_movement_distance := walk.total_movement }

/-- `validate_job` (`validator.py:678-690`): a fresh `PulserValidator` with
the default velocity and bandwidth and the given `strict` flag. -/
noncomputable def validate_job (job : NeutralAtomJob) (strict : Bool) :
    ValidationResult :=
  (PulserValidator.mk (55 / 100) 100 strict).validate job

/-- Position-map evolution alone: the fold that commits every shuttle's
target positions, defined with no reference to any validation outcome.
Used to state that the walk's position tracking is unconditional. -/
def commitShuttles : List NeutralAtomOperation → PosMap → PosMap
  | [], cur => cur
  | op :: rest, cur =>
      let cur' := match op with
        | .shuttleMove atom_ids _ _ target_positions =>
            (atom_ids.zip target_positions).foldl
              (fun m p => dictUpdate m p.1 p.2) cur
        | _ => cur
      commitShuttles rest cur'

/-! ## The spectral AOD router (`optimizer.py`)

`optimize_mapping` and `_calculate_physics_cost` draw from Python's global
`random` module; the embedding threads that stream explicitly as a function
`draws : ℕ → ℚ` of unit-interval draws together with a cursor.  In
`mode="random"`, `random.sample` (`optimizer.py:81`) consumes a number of
draws that depends only on the RNG state and the population size; that count
is taken as the explicit argument `sample_consumed`.  The positions the
sample produces are dead code — `positions` is never read after being
filled — so only the cursor advance matters.  `nx.spectral_layout`
(`optimizer.py:50`) is likewise computed and never used, and is not
modelled. -/

/-- Python `round(x, n)` over exact rationals (half-to-even versus half-up
differ only at exact half-ulp points, never hit below). -/
def pyRoundQ (ndigits : ℕ) (x : ℚ) : ℚ :=
  (round (x * 10 ^ ndigits) : ℤ) / 10 ^ ndigits

/-- The cost dict returned by `_calculate_physics_cost`
(`optimizer.py:118-122`). -/
structure CostBreakdown where
  total_distance : ℚ
  aod_conflicts : ℕ
  total_cost : ℚ
deriving DecidableEq, Repr

/-- The per-edge loop of `_calculate_physics_cost` (`optimizer.py:108-112`):
accumulate `weight * avg_dist` and draw one conflict Bernoulli per edge. -/
def edgeLoop (avg_dist conflict_prob : ℚ) (draws : ℕ → ℚ) :
    List (ℕ × ℕ × ℕ) → ℕ → ℚ × ℕ
  | [], _ => (0, 0)
  | (_, _, w) :: rest, c =>
      let restRes := edgeLoop avg_dist conflict_prob draws rest (c + 1)
      ((w : ℚ) * avg_dist + restRes.1,
        (if draws c < conflict_prob then 1 else 0) + restRes.2)

/-- `_calculate_physics_cost` (`optimizer.py:70-122`), returning the cost
breakdown and the advanced RNG cursor.  The graph is its edge list
`(u, v, weight)`. -/
def calculate_physics_cost (width height : ℚ) (edges : List (ℕ × ℕ × ℕ))
    (random_mode : Bool) (sample_consumed : ℕ) (draws : ℕ → ℚ) (c : ℕ) :
    CostBreakdown × ℕ :=
  let c0 := if random_mode then c + sample_consumed else c
  let avg_dist : ℚ := if random_mode then (width + height) / (5 / 2) else 9 / 5
  let conflict_prob : ℚ := if random_mode then 3 / 10 else 5 / 100
  let acc := edgeLoop avg_dist conflict_prob draws edges c0
  ({ total_distance := acc.1, aod_conflicts := acc.2,
     total_cost := acc.1 + 5 * (acc.2 : ℚ) }, c0 + edges.length)

/-- The dict returned by `optimize_mapping` (`optimizer.py:61-68`); the
constant `"method"` entry is omitted. -/
structure OptimizeResult where
  initial_cost : ℚ
  optimized_cost : ℚ
  heating_reduction_percent : ℚ
  total_distance_euclidean : ℚ
  aod_conflicts_avoided : ℤ
deriving DecidableEq, Repr

/-- `optimize_mapping` (`optimizer.py:44-68`), returning the result and the
advanced RNG cursor.  The two `_calculate_physics_cost` calls consume the
stream in sequence, random mode first. -/
def optimize_mapping (width height : ℚ) (edges : List (ℕ × ℕ × ℕ))
    (sample_consumed : ℕ) (draws : ℕ → ℚ) (c : ℕ) : OptimizeResult × ℕ :=
  let unoptRes := calculate_physics_cost width height edges true
    sample_consumed draws c
  let optRes := calculate_physics_cost width height edges false
    sample_consumed draws unoptRes.2
  let unopt := unoptRes.1
  let opt := optRes.1
  let heating_reduction : ℚ :=
    if 0 < unopt.total_distance then
      (unopt.total_distance - opt.total_distance) / unopt.total_distance
    else 0
  ({ initial_cost := pyRoundQ 2 unopt.total_cost,
     optimized_cost := pyRoundQ 2 opt.total_cost,
     heating_reduction_percent := pyRoundQ 1 (heating_reduction * 100),
     total_distance_euclidean := pyRoundQ 2 opt.total_distance,
     aod_conflicts_avoided :=
       (unopt.aod_conflicts : ℤ) - (opt.aod_conflicts : ℤ) }, optRes.2)

/-! ## The benchmark telemetry simulator (`server.py`)

The per-cycle physics uses `math.exp`, so state and frames live in `ℝ`.
Randomness (`random.random()`, `random.uniform(-0.1, 0.1)`,
`random.uniform(0.9, 1.1)`) is threaded as three per-cycle draw streams.
The wall-clock sleep and the ISO timestamp field are not modelled.

Python resolves the name `math` in `math.exp(-alpha * d)`
(`server.py:337`) against the module's global namespace at call time; the
embedding makes that resolution explicit, since `server.py` never imports
`math`. -/

/-- Python `round(x, n)` over `ℝ` (see `pyRoundQ` for the half-ulp caveat). -/
noncomputable def pyRoundR (ndigits : ℕ) (x : ℝ) : ℝ :=
  (round (x * 10 ^ ndigits) : ℤ) / 10 ^ ndigits

/-- Telemetry statuses (`server.py:193`). -/
inductive TStatus where
  | CONNECTING
  | RUNNING
  | COMPLETED
  | STOPPED
  | ERROR
  | AUTH_REQUIRED
deriving DecidableEq, Repr

/-- `TelemetryPayload` (`server.py:188-200`), minus the wall-clock
`timestamp`. -/
structure TelemetryPayload where
  status : TStatus
  percentage : ℝ
  cycle : ℕ
  atoms_lost : ℕ
  n_vib : ℝ
  fidelity : ℝ
  decoder_backlog_ms : ℝ

/-- A Python exception escaping the simulation coroutine. -/
inductive PyErr where
  | nameError (missing : String)
deriving DecidableEq, Repr

/-- Every module-level name bound in `server.py` up to and including the
WebSocket handler: the imports of `server.py:14-34`, then the top-level
constants, classes and functions defined before `simulate_benchmark_execution`
runs.  `math` is not among them — `server.py` never imports `math`. -/
def serverBoundNames : List String :=
  ["os", "sys", "re", "subprocess", "json", "asyncio", "logging", "random",
   "uuid", "secrets", "List", "Optional", "Dict", "Any", "Set", "datetime",
   "FastAPI", "HTTPException", "WebSocket", "WebSocketDisconnect",
   "CORSMiddleware", "BaseModel", "field_validator", "SpectralAODRouter",
   "run_qram_benchmark", "run_crypto_benchmark", "BloqadeExporter",
   "OpenQASM3Exporter", "logger", "app", "API_KEY", "IS_DEV_MODE",
   "ALLOWED_ORIGINS", "PYTHON_EXE", "BASE_DIR", "BENCHMARKS_DIR",
   "FAVORITES_FILE", "ALLOWED_BENCHMARK_TYPES", "BENCHMARK_TYPE_PATTERN",
   "validate_benchmark_type", "verify_api_key", "RunBenchmarkRequest",
   "ComparisonConfig", "TelemetryPayload", "BenchmarkConnectionManager",
   "manager", "simulate_benchmark_execution", "root", "websocket_benchmark"]

/-- The benchmark whitelist (`server.py:98-105`). -/
def ALLOWED_BENCHMARK_TYPES : List String :=
  ["velocity_fidelity", "ancilla_vs_swap", "cooling_strategies",
   "zoned_cycles", "sustainable_depth", "full"]

/-- Per-client simulator state: the loop-local variables of
`simulate_benchmark_execution` (`server.py:280-283`, `server.py:322`). -/
structure SimState where
  n_vib : ℝ
  total_atoms_lost : ℕ
  fidelity : ℝ
  syndrome_queue : ℝ

/-- Initial simulator state (`server.py:280-283` and the `cycle == 1` queue
initialisation at `server.py:321-322`). -/
noncomputable def initSimState : SimState :=
  { n_vib := 0, total_atoms_lost := 0, fidelity := 9999 / 10000,
    syndrome_queue := 0 }

/-- One body of the `for cycle in range(1, total_cycles + 1)` loop
(`server.py:284-371`), after the stop-flag check: the atom-loss draw, the
heating and cooling updates, the fidelity decay, and the decoder-queue
block.  Evaluating `math.exp` first resolves the module-level name `math`;
when it is unbound the cycle raises `NameError` before any telemetry for
the cycle is produced. -/
noncomputable def cycleStep (names : List String) (total_cycles cycle : ℕ)
    (st : SimState) (lossDraw heatDraw capDraw : ℝ) :
    Except PyErr (SimState × TelemetryPayload) :=
  let atoms_lost_this_cycle : ℕ := if lossDraw < 3 / 1000 then 1 else 0
  let total_atoms_lost := st.total_atoms_lost + atoms_lost_this_cycle
  let heated := st.n_vib + 5 / 100 * (1 + heatDraw)
  let n_vib := if 3 / 2 < heated then 1 / 10 else heated
  let fidelity := st.fidelity * (1 - 1 / 10000 * n_vib)
  let d : ℕ := if 30 < cycle then 7 else if 15 < cycle then 5 else 3
  if "math" ∈ names then
    let decoding_capacity :=
      10 * Real.exp (-(4 / 10 * (d : ℝ))) * capDraw
    let queue1 := st.syndrome_queue + 1
    let processed := min queue1 decoding_capacity
    let syndrome_queue := queue1 - processed
    let time_to_clear := syndrome_queue / decoding_capacity * 20
    let latency :=
      if syndrome_queue < 1 / 100 then 1 / decoding_capacity * 20
      else time_to_clear
    .ok ({ n_vib := n_vib, total_atoms_lost := total_atoms_lost,
           fidelity := fidelity, syndrome_queue := syndrome_queue },
         { status := .RUNNING,
           percentage := 100 * (cycle : ℝ) / (total_cycles : ℝ),
           cycle := cycle, atoms_lost := total_atoms_lost,
           n_vib := pyRoundR 3 n_vib, fidelity := pyRoundR 6 fidelity,
           decoder_backlog_ms := pyRoundR 2 latency })
  else .error (.nameError "math")

/-- How the loop of `simulate_benchmark_execution` ends. -/
inductive LoopExit where
  | finished (st : SimState)
  | stopped
  | errored (e : PyErr)

/-- The cycle loop (`server.py:284-371`): the stop-flag check and STOPPED
frame (`server.py:286-297`), then the cycle body, then the RUNNING frame. -/
noncomputable def simLoop (names : List String) (flag : ℕ → Bool)
    (total_cycles : ℕ) (lossDraws heatDraws capDraws : ℕ → ℝ) :
    List ℕ → SimState → List TelemetryPayload × LoopExit
  | [], st => ([], .finished st)
  | cycle :: rest, st =>
      if flag cycle = false then
        ([{ status := .STOPPED,
            percentage := 100 * (cycle : ℝ) / (total_cycles : ℝ),
            cycle := cycle, atoms_lost := st.total_atoms_lost,
            n_vib := st.n_vib, fidelity := st.fidelity,
            decoder_backlog_ms := 0 }], .stopped)
      else
        match cycleStep names total_cycles cycle st (lossDraws cycle)
          (heatDraws cycle) (capDraws cycle) with
        | .error e => ([], .errored e)
        | .ok (st', frame) =>
            let restRes := simLoop names flag total_cycles lossDraws
              heatDraws capDraws rest st'
            (frame :: restRes.1, restRes.2)

/-- `simulate_benchmark_execution` (`server.py:249-383`): the defensive
re-validation of the benchmark type (an invalid type returns silently), the
cycle-count clamp to `[1, 1000]`, the loop, and the final COMPLETED frame.
Returns the frames the coroutine sent and whether it returned normally or
raised. -/
noncomputable def simulate_benchmark_execution (names : List String)
    (benchmark_type : String) (flag : ℕ → Bool) (total_cycles_arg : ℕ)
    (lossDraws heatDraws capDraws : ℕ → ℝ) :
    List TelemetryPayload × Except PyErr Unit :=
  if benchmark_type ∉ ALLOWED_BENCHMARK_TYPES then ([], .ok ())
  else
    let total_cycles := max 1 (min total_cycles_arg 1000)
    match simLoop names flag total_cycles lossDraws heatDraws capDraws
      (List.range' 1 total_cycles) initSimState with
    | (frames, .finished st) =>
        (frames ++ [{ status := .COMPLETED
                      percentage := 100
                      cycle := total_cycles
                      atoms_lost := st.total_atoms_lost
                      n_vib := pyRoundR 3 st.n_vib
                      fidelity := pyRoundR 6 st.fidelity
                      decoder_backlog_ms := 0 }], .ok ())
    | (frames, .stopped) => (frames, .ok ())
    | (frames, .errored e) => (frames, .error e)

/-- The CONNECTING frame the WebSocket handler sends before starting the
simulation (`server.py:488-497`). -/
def connectingFrame : TelemetryPayload :=
  { status := .CONNECTING, percentage := 0, cycle := 0, atoms_lost := 0,
    n_vib := 0, fidelity := 1, decoder_backlog_ms := 0 }

/-- The frames a successfully authenticated client with a valid benchmark
command receives from `websocket_benchmark` (`server.py:488-510`): the
CONNECTING frame, then whatever the simulation coroutine sent.  An
exception escaping `simulate_benchmark_execution` reaches the
`except Exception` handler at `server.py:508-510`, which logs and
disconnects without sending any further frame. -/
noncomputable def websocket_benchmark_frames (names : List String)
    (benchmark_type : String) (flag : ℕ → Bool) (total_cycles_arg : ℕ)
    (lossDraws heatDraws capDraws : ℕ → ℝ) : List TelemetryPayload :=
  connectingFrame :: (simulate_benchmark_execution names benchmark_type flag
    total_cycles_arg lossDraws heatDraws capDraws).1

/-! ## Statement-level predicates and concrete test inputs -/

/-- Operations listed in non-decreasing `start_time` order. -/
def startTimeSorted (ops : List NeutralAtomOperation) : Prop :=
  List.Sorted (fun a b => a.start_time ≤ b.start_time) ops

/-- Operations listed in strictly increasing `start_time` order. -/
def startTimeStrictSorted (ops : List NeutralAtomOperation) : Prop :=
  List.Sorted (fun a b => a.start_time < b.start_time) ops

/-- The state invariant of the benchmark loop: `n_vib ∈ [0, 1.5]` (cooling
resets anything above `1.5`), `fidelity ∈ [0, 1]`, queue nonnegative. -/
def SimInv (st : SimState) : Prop :=
  0 ≤ st.n_vib ∧ st.n_vib ≤ 3 / 2 ∧ 0 ≤ st.fidelity ∧ st.fidelity ≤ 1 ∧
    0 ≤ st.syndrome_queue

/-- The frame bounds of property §8.7 of the specification. -/
def goodFrame (f : TelemetryPayload) : Prop :=
  0 ≤ f.percentage ∧ f.percentage ≤ 100 ∧ 0 ≤ f.fidelity ∧ f.fidelity ≤ 1 ∧
    0 ≤ f.n_vib ∧ 0 ≤ (f.atoms_lost : ℤ) ∧ 0 ≤ f.decoder_backlog_ms

/-- Two SLM atoms 4.2 µm apart with `min_atom_distance = 4`: inside the
near-collision band `[min, 1.1·min)`, hence a `NEAR_COLLISION` warning and
no error. -/
def nearCollisionJob : NeutralAtomJob :=
  { register :=
      { min_atom_distance := 4, blockade_radius := 8,
        atoms := [⟨0, 0, 0, .SLM, none, none⟩,
                  ⟨1, 21 / 5, 0, .SLM, none, none⟩],
        zones := none }
    operations := [.measurement [0] 0] }

/-- A register whose only mobile atom has role `BUS`, and a slow, safe
shuttle of that atom. -/
def busShuttleJob : NeutralAtomJob :=
  { register :=
      { min_atom_distance := 4, blockade_radius := 8,
        atoms := [⟨0, 0, 0, .SLM, none, none⟩,
                  ⟨1, 10, 0, .BUS, some 0, some 0⟩],
        zones := none }
    operations := [.shuttleMove [1] 0 100000 [(10, 5)]] }

/-- Register for the reordering counterexample: a static atom at the origin
and an AOD atom 6 µm away (inside the 8 µm blockade radius). -/
def reorderRegister : NeutralAtomRegister :=
  { min_atom_distance := 4, blockade_radius := 8,
    atoms := [⟨0, 0, 0, .SLM, none, none⟩,
              ⟨1, 6, 0, .AOD, some 0, some 0⟩],
    zones := none }

/-- A slow shuttle of atom 1 from `(6, 0)` to `(20, 0)`, at `start_time 0`. -/
def reorderShuttle : NeutralAtomOperation :=
  .shuttleMove [1] 0 100000 [(20, 0)]

/-- A Rydberg gate on atoms 0 and 1, also at `start_time 0`. -/
def reorderGate : NeutralAtomOperation :=
  .rydbergGate 0 1 0

/-- The job that validates the shuttle before the gate. -/
def shuttleThenGateJob : NeutralAtomJob :=
  { register := reorderRegister, operations := [reorderShuttle, reorderGate] }

/-- The same operations in the other `start_time`-preserving order. -/
def gateThenShuttleJob : NeutralAtomJob :=
  { register := reorderRegister, operations := [reorderGate, reorderShuttle] }

/-- Two STORAGE zones, one with shielding light and one without, with one
SLM atom inside each, plus a global pulse. -/
def mixedStorageJob : NeutralAtomJob :=
  { register :=
      { min_atom_distance := 4, blockade_radius := 8,
        atoms := [⟨0, 5, 5, .SLM, none, none⟩,
                  ⟨1, 25, 5, .SLM, none, none⟩],
        zones := some
          [{ zone_id := "stor_shielded", zone_type := .STORAGE,
             x_min := 0, x_max := 10, y_min := 0, y_max := 10,
             shielding_light := true },
           { zone_id := "stor_plain", zone_type := .STORAGE,
             x_min := 20, x_max := 30, y_min := 0, y_max := 10,
             shielding_light := false }] }
    operations := [.globalPulse 0 ⟨100⟩ none 0] }

/-- A shuttle of a static (SLM) atom — a hard role error — followed by a
gate whose distance check can only fail if the erroring shuttle's target
position was nevertheless committed. -/
def slmShuttleThenGateJob : NeutralAtomJob :=
  { register :=
      { min_atom_distance := 4, blockade_radius := 8,
        atoms := [⟨0, 0, 0, .SLM, none, none⟩,
                  ⟨1, 6, 0, .SLM, none, none⟩],
        zones := none }
    operations := [.shuttleMove [1] 0 100000 [(20, 0)],
                   .rydbergGate 0 1 200000] }

/-! ## Bridging lemmas

These record the equivalence used to embed the source's
`math.sqrt(s) < t` comparisons as `s < t²`: every threshold the validator
compares a norm against is positive. -/

theorem sqrt_cmp_lt {s t : ℝ} (ht : 0 < t) :
    Real.sqrt s < t ↔ s < t ^ 2 :=
  Real.sqrt_lt' ht

theorem sqrt_cmp_gt {s t : ℝ} (ht : 0 ≤ t) :
    t < Real.sqrt s ↔ t ^ 2 < s :=
  Real.lt_sqrt ht

/-- Justification for the rational form of the heating increment used in
`shuttleAtomsLoop`: with `dist = √d2` and `velocity = dist / du`, the
source's `HeatingModel.calculate_nvib_increase(dist, velocity)` (coefficient
`0.01`) equals `0.01 · d2 / du` exactly. -/
theorem nvib_increase_of_sq (d2 du : ℝ) (hd2 : 0 ≤ d2) :
    1 / 100 * Real.sqrt d2 * (Real.sqrt d2 / du) = 1 / 100 * d2 / du := by
  rw [mul_assoc, ← mul_div_assoc, Real.mul_self_sqrt hd2, mul_div_assoc]

/-- Constructor disequalities, spelled out for use in evaluation proofs. -/
theorem slm_ne_aod : TrapRole.SLM ≠ TrapRole.AOD := by simp

theorem bus_ne_aod : TrapRole.BUS ≠ TrapRole.AOD := by simp

theorem storage_role_ne_aod : TrapRole.STORAGE ≠ TrapRole.AOD := by simp

theorem storage_ne_readout : ZoneType.STORAGE ≠ ZoneType.READOUT := by simp

/-! ## C7 — ranges of the physics models -/

/-- C7: the claim quantifies over every `n_vib`, but
`HeatingModel.estimate_fidelity_loss` is `min(1, 0.008 · n_vib)` with no
clamp below, so at `n_vib = -1` it returns `-0.008 < 0`, refuting
`0 ≤ fidelity_loss(n_vib)` as stated. -/
theorem fidelity_loss_negative_at_minus_one :
    HeatingModel.estimate_fidelity_loss (-1) (8 / 1000) < 0 := by
  unfold HeatingModel.estimate_fidelity_loss
  apply min_lt_iff.mpr
  right
  norm_num

/-- C7 (amended): for every `n_vib ≥ 0` the fidelity loss lies in `[0, 1]`;
the loss probability lies in `[0, 1]` for every `n_vib` whatsoever; and the
source's fidelity loss agrees with the spec's formula `min(1, 0.008·n_vib)`
everywhere. -/
theorem physics_models_range_bounded :
    (∀ n : ℚ, 0 ≤ n →
      0 ≤ HeatingModel.estimate_fidelity_loss n (8 / 1000) ∧
        HeatingModel.estimate_fidelity_loss n (8 / 1000) ≤ 1) ∧
    (∀ n : ℚ,
      0 ≤ AtomLossModel.calculate_loss_probability n 18 (1 / 1000) (5 / 1000) ∧
        AtomLossModel.calculate_loss_probability n 18 (1 / 1000) (5 / 1000)
          ≤ 1) ∧
    ∀ n : ℚ, HeatingModel.estimate_fidelity_loss n (8 / 1000) =
      spec_fidelity_loss n := by
  refine ⟨fun n hn => ⟨?_, ?_⟩, fun n => ⟨?_, ?_⟩, fun n => rfl⟩
  · exact le_min (by norm_num) (by positivity)
  · exact min_le_left _ _
  · exact le_min (by norm_num)
      (by positivity)
  · exact min_le_left _ _

/-- C7 amended witness at `n_vib = 5`. -/
theorem physics_models_range_bounded_witness :
    0 ≤ HeatingModel.estimate_fidelity_loss 5 (8 / 1000) ∧
      HeatingModel.estimate_fidelity_loss 5 (8 / 1000) ≤ 1 :=
  physics_models_range_bounded.1 5 (by norm_num)

/-! ## C1 — the strict flag -/

/-- C1: the `strict` flag never promotes anything.  `PulserValidator`
stores `strict_mode` but `validate` never reads it, so validation results
are identical for every value of the flag; in particular the near-collision
job keeps `is_valid = true` with its `NEAR_COLLISION` warning even under
`strict = true`, contradicting both the claim and the validator's own
docstring ("If True, warnings become errors for edge cases"). -/
theorem strict_flag_never_promotes :
    (∀ (job : NeutralAtomJob) (s₁ s₂ : Bool),
      validate_job job s₁ = validate_job job s₂) ∧
    (validate_job nearCollisionJob true).is_valid = true ∧
    (validate_job nearCollisionJob true).warnings.map (fun w => w.code) =
      [.NEAR_COLLISION] := by
  refine ⟨fun job s₁ s₂ => ?_, ?_, ?_⟩
  · simp [validate_job, PulserValidator.validate]
  · norm_num [validate_job, PulserValidator.validate, nearCollisionJob,
      validate_register_geometry, geometryPairs, geometryPairAgainst, dist2,
      validateWalk, validate_operation, validate_measurement_zones,
      check_temporal_overlaps, overlapIntervals, opOverlapDuration,
      isShuttle, overlapPairs, pyFind?, pyFilter, pyFilterMap, slm_ne_aod]
  · norm_num [validate_job, PulserValidator.validate, nearCollisionJob,
      validate_register_geometry, geometryPairs, geometryPairAgainst, dist2,
      validateWalk, validate_operation, validate_measurement_zones,
      check_temporal_overlaps, overlapIntervals, opOverlapDuration,
      isShuttle, overlapPairs, pyFind?, pyFilter, pyFilterMap, slm_ne_aod]

/-! ## C2 — the shuttle role check -/

/-- Emptiness of a first-match loop. -/
theorem pyFind?_eq_none {p : α → Prop} [DecidablePred p] :
    ∀ {l : List α}, pyFind? p l = none ↔ ∀ a ∈ l, ¬ p a := by
  intro l
  induction l with
  | nil => simp [pyFind?]
  | cons a rest ih =>
      by_cases hp : p a
      · simp [pyFind?, hp]
      · simp [pyFind?, hp, ih]

/-- Membership in a guarded comprehension. -/
theorem mem_pyFilterMap {f : α → Option β} {b : β} :
    ∀ {l : List α}, b ∈ pyFilterMap f l ↔ ∃ a ∈ l, f a = some b := by
  intro l
  induction l with
  | nil => simp [pyFilterMap]
  | cons a rest ih =>
      rcases hfa : f a with _ | c
      · simp [pyFilterMap, hfa, ih]
      · simp only [pyFilterMap, hfa, List.mem_cons, ih]
        constructor
        · rintro (rfl | ⟨a', ha', hf⟩)
          · exact ⟨a, Or.inl rfl, hfa⟩
          · exact ⟨a', Or.inr ha', hf⟩
        · rintro ⟨a', ha | ha', hf⟩
          · subst ha
            rw [hfa] at hf
            exact Or.inl (Option.some.inj hf).symm
          · exact Or.inr ⟨a', ha', hf⟩

/-- The topological check only ever produces the two
`TopologicalViolationError` variants. -/
theorem check_topological_constraint_shape {ids : List ℕ}
    {tps : List (ℚ × ℚ)} {reg : NeutralAtomRegister} {e : PhysicsConstraintErr}
    (h : check_topological_constraint ids tps reg = some e) :
    e = .topologicalViolationRow ∨ e = .topologicalViolationColumn := by
  simp only [check_topological_constraint] at h
  split at h
  · exact absurd h (by simp)
  · split at h
    · split at h
      · exact absurd h (by simp)
      · exact .inr (Option.some.inj h).symm
    · exact .inl (Option.some.inj h).symm

/-- Membership in a fold of per-element comprehensions comes from one pair
of elements. -/
theorem mem_foldr_filterMap_append {β : Type}
    {f : ℕ × (ℚ × ℚ) → ℕ × (ℚ × ℚ) → Option β} {m : PosMap} {e : β} :
    ∀ {l : PosMap},
      e ∈ l.foldr (fun p1 acc => pyFilterMap (f p1) m ++ acc) [] →
        ∃ p1 ∈ l, ∃ p2 ∈ m, f p1 p2 = some e := by
  intro l h
  induction l with
  | nil => exact absurd h (by simp)
  | cons p rest ih =>
      rcases List.mem_append.mp h with hmem | hmem
      · obtain ⟨q, hqm, hq⟩ := mem_pyFilterMap.mp hmem
        exact ⟨p, List.mem_cons_self p rest, q, hqm, hq⟩
      · obtain ⟨p1, hp1, p2, hp2, hf⟩ := ih hmem
        exact ⟨p1, List.mem_cons_of_mem p hp1, p2, hp2, hf⟩

/-- The post-move collision check only ever produces `CollisionError`s. -/
theorem shuttleCollisionCheck_shape {min_dist : ℚ} {m : PosMap}
    {e : PhysicsConstraintErr} (h : e ∈ shuttleCollisionCheck min_dist m) :
    ∃ i j, e = .collision i j := by
  unfold shuttleCollisionCheck at h
  obtain ⟨p1, -, p2, -, hf⟩ := mem_foldr_filterMap_append h
  split at hf
  · exact absurd hf (by simp)
  · split at hf
    · exact ⟨_, _, (Option.some.inj hf).symm⟩
    · exact absurd hf (by simp)

/-- The per-atom loop emits the role error for `aid` exactly when some moved
pair names `aid` and the AOD lookup `aod_atoms.get(aid)` fails. -/
theorem notAod_mem_shuttleAtomsLoop (vmax : ℚ) (reg : NeutralAtomRegister)
    (cur : PosMap) (idx : ℕ) (du : ℚ) (pairs : List (ℕ × (ℚ × ℚ)))
    (aid : ℕ) :
    PhysicsConstraintErr.notAodAtom aid ∈
        (shuttleAtomsLoop vmax reg cur idx du pairs).errors ↔
      aid ∈ pairs.map Prod.fst ∧
        pyFind? (fun a => a.id = aid ∧ a.role = TrapRole.AOD) reg.atoms
          = none := by
  induction pairs with
  | nil => simp [shuttleAtomsLoop]
  | cons p rest ih =>
      obtain ⟨b, t⟩ := p
      by_cases hb :
          pyFind? (fun a => a.id = b ∧ a.role = TrapRole.AOD) reg.atoms
            = none
      · by_cases hab : aid = b
        · subst hab
          simp [shuttleAtomsLoop, hb, ih]
        · simp only [shuttleAtomsLoop, hb, if_pos]
          simp only [List.mem_cons, List.map_cons]
          constructor
          · rintro (habs | hmem)
            · exact absurd (by injection habs) hab
            · obtain ⟨h1, h2⟩ := ih.mp hmem
              exact ⟨.inr h1, h2⟩
          · rintro ⟨h1 | h1, h2⟩
            · exact absurd h1 hab
            · exact .inr (ih.mpr ⟨h1, h2⟩)
      · simp only [shuttleAtomsLoop, hb, if_neg, if_false]
        simp only [List.mem_append, List.map_cons, List.mem_cons]
        constructor
        · rintro (hvel | hmem)
          · split at hvel
            · simp at hvel
            · simp at hvel
          · obtain ⟨h1, h2⟩ := ih.mp hmem
            exact ⟨.inr h1, h2⟩
        · rintro ⟨h1 | h1, h2⟩
          · exact absurd (h1 ▸ h2) hb
          · exact .inr (ih.mpr ⟨h1, h2⟩)

/-- C2 (amended): `_validate_shuttle` emits the hard role error
("cannot shuttle ... atoms") for an atom exactly when the atom is listed in
the move and its register entry does not have role `AOD` — so atoms of role
`BUS`, which the specification counts as mobile, are rejected exactly like
`SLM` and `STORAGE` atoms.  (`aod_atoms` at `validator.py:320` keeps only
`TrapRole.AOD`.) -/
theorem shuttle_role_error_iff_not_AOD (vmax : ℚ)
    (reg : NeutralAtomRegister) (cur : PosMap) (idx : ℕ) (ids : List ℕ)
    (du : ℚ) (tps : List (ℚ × ℚ)) (aid : ℕ) (hlen : ids.length ≤ tps.length) :
    PhysicsConstraintErr.notAodAtom aid ∈
        (validate_shuttle vmax reg cur idx ids du tps).errors ↔
      aid ∈ ids ∧ ∀ a ∈ reg.atoms, a.id = aid → a.role ≠ TrapRole.AOD := by
  have hmap : (ids.zip tps).map Prod.fst = ids := by
    rw [List.map_fst_zip]
    exact hlen
  constructor
  · intro h
    simp only [validate_shuttle, List.mem_append] at h
    rcases h with (h | h) | h
    · obtain ⟨h1, h2⟩ := (notAod_mem_shuttleAtomsLoop vmax reg cur idx du
        (ids.zip tps) aid).mp h
      rw [hmap] at h1
      refine ⟨h1, fun a ha hid => ?_⟩
      intro hrole
      exact (pyFind?_eq_none.mp h2) a ha ⟨hid, hrole⟩
    · have hcase := Option.mem_toList.mp h
      rcases check_topological_constraint_shape hcase with he | he <;>
        exact absurd he (by simp)
    · obtain ⟨i, j, he⟩ := shuttleCollisionCheck_shape h
      exact absurd he (by simp)
  · rintro ⟨h1, h2⟩
    simp only [validate_shuttle, List.mem_append]
    refine .inl (.inl ((notAod_mem_shuttleAtomsLoop vmax reg cur idx du
      (ids.zip tps) aid).mpr ⟨?_, ?_⟩))
    · rw [hmap]
      exact h1
    · apply pyFind?_eq_none.mpr
      rintro a ha ⟨hid, hrole⟩
      exact h2 a ha hid hrole

/-- C2 amended witness: in `busShuttleJob`'s move of the `BUS` atom 1, the
role error for atom 1 is emitted. -/
theorem shuttle_role_error_iff_not_AOD_witness :
    PhysicsConstraintErr.notAodAtom 1 ∈
      (validate_shuttle (55 / 100) busShuttleJob.register
        [(0, (0, 0)), (1, (10, 0))] 0 [1] 100000 [(10, 5)]).errors := by
  apply (shuttle_role_error_iff_not_AOD (55 / 100) busShuttleJob.register
    [(0, (0, 0)), (1, (10, 0))] 0 [1] 100000 [(10, 5)] 1 (by simp)).mpr
  refine ⟨by simp, ?_⟩
  intro a ha hid
  simp only [busShuttleJob, List.mem_cons, List.not_mem_nil, or_false]
    at ha
  rcases ha with ha | ha
  · subst ha
    exact absurd hid (by simp)
  · subst ha
    simp

/-- C2: the claim's own test case fails on the code — a `ShuttleMove` whose
atoms all have role `BUS` produces the hard role error and invalidates the
job, because the validator's `aod_atoms` lookup admits only `TrapRole.AOD`. -/
theorem bus_shuttle_emits_role_error :
    (validate_job busShuttleJob true).errors = [.notAodAtom 1] ∧
    (validate_job busShuttleJob true).is_valid = false := by
  constructor <;>
    norm_num [validate_job, PulserValidator.validate, busShuttleJob,
      validate_register_geometry, geometryPairs, geometryPairAgainst, dist2,
      validateWalk, validate_operation, validate_shuttle, shuttleAtomsLoop,
      check_topological_constraint, shuttleCollisionCheck, dictUpdate,
      dictGet?, dictGetD, dictOfZip, stableInsert, sortByKey, pyFind?,
      pyFilter, pyFilterMap, slm_ne_aod, bus_ne_aod, Option.some_ne_none,
      AtomLossModel.calculate_loss_probability, check_temporal_overlaps,
      overlapIntervals, opOverlapDuration, isShuttle, overlapPairs,
      overlapAgainst]

/-! ## C3 — walk order and permutation invariance -/

/-- C3: the claim fails on the code.  `validate` walks `job.operations` in
list order (`validator.py:186`), not sorted by `start_time`.  The two jobs
below hold the same operations — a shuttle and a gate, both at
`start_time 0` — in the two orders, so each is a `start_time`-order
preserving permutation of the other; yet one validates invalid (the gate is
checked at the post-shuttle distance 20 µm > blockade 8 µm) and the other
valid (the gate is checked at the pre-shuttle distance 6 µm), a difference
far beyond the `operation_index` fields of warnings. -/
theorem start_time_permutation_changes_result :
    gateThenShuttleJob.operations.Perm shuttleThenGateJob.operations ∧
    startTimeSorted shuttleThenGateJob.operations ∧
    startTimeSorted gateThenShuttleJob.operations ∧
    (validate_job shuttleThenGateJob true).is_valid = false ∧
    (validate_job gateThenShuttleJob true).is_valid = true := by
  refine ⟨?_, ?_, ?_, ?_, ?_⟩
  · exact List.Perm.swap reorderShuttle reorderGate []
  · norm_num [startTimeSorted, shuttleThenGateJob, reorderShuttle,
      reorderGate, NeutralAtomOperation.start_time]
  · norm_num [startTimeSorted, gateThenShuttleJob, reorderShuttle,
      reorderGate, NeutralAtomOperation.start_time]
  · norm_num [validate_job, PulserValidator.validate, shuttleThenGateJob,
      reorderRegister, reorderShuttle, reorderGate,
      validate_register_geometry, geometryPairs, geometryPairAgainst, dist2,
      validateWalk, validate_operation, validate_shuttle, shuttleAtomsLoop,
      validate_rydberg_gate, check_topological_constraint,
      shuttleCollisionCheck, dictUpdate, dictGet?, dictGetD, dictOfZip,
      stableInsert, sortByKey, pyFind?, pyFilter, pyFilterMap, slm_ne_aod,
      Option.some_ne_none, AtomLossModel.calculate_loss_probability,
      check_temporal_overlaps, overlapIntervals, opOverlapDuration,
      NeutralAtomOperation.start_time, isShuttle, overlapPairs,
      overlapAgainst]
  · norm_num [validate_job, PulserValidator.validate, gateThenShuttleJob,
      reorderRegister, reorderShuttle, reorderGate,
      validate_register_geometry, geometryPairs, geometryPairAgainst, dist2,
      validateWalk, validate_operation, validate_shuttle, shuttleAtomsLoop,
      validate_rydberg_gate, check_topological_constraint,
      shuttleCollisionCheck, dictUpdate, dictGet?, dictGetD, dictOfZip,
      stableInsert, sortByKey, pyFind?, pyFilter, pyFilterMap, slm_ne_aod,
      Option.some_ne_none, AtomLossModel.calculate_loss_probability,
      check_temporal_overlaps, overlapIntervals, opOverlapDuration,
      NeutralAtomOperation.start_time, isShuttle, overlapPairs,
      overlapAgainst]

/-- C3 (amended): the validator walks operations in the order they are
listed.  When the start times are strictly increasing, a permutation that
preserves `start_time` order is the identity, so validation is invariant;
the invariance claimed for merely non-decreasing order fails (see the
counterexample) because equal-start-time operations may be reordered. -/
theorem validate_invariant_of_strict_start_order
    (reg : NeutralAtomRegister) (ops1 ops2 : List NeutralAtomOperation)
    (s : Bool) (hperm : ops1.Perm ops2)
    (h1 : startTimeStrictSorted ops1) (h2 : startTimeStrictSorted ops2) :
    validate_job ⟨reg, ops1⟩ s = validate_job ⟨reg, ops2⟩ s := by
  have heq : ops1 = ops2 := by
    haveI : IsAntisymm NeutralAtomOperation
        (fun a b => a.start_time < b.start_time) :=
      ⟨fun a b hab hba => absurd hba (not_lt.mpr (le_of_lt hab))⟩
    exact List.eq_of_perm_of_sorted hperm h1 h2
  rw [heq]

/-- C3 amended witness: two strictly increasing operation lists related by
the (identity) permutation. -/
theorem validate_invariant_of_strict_start_order_witness :
    validate_job ⟨reorderRegister, [.measurement [0] 0, .measurement [1] 5]⟩
        true =
      validate_job ⟨reorderRegister,
        [.measurement [0] 0, .measurement [1] 5]⟩ true :=
  validate_invariant_of_strict_start_order reorderRegister _ _ true
    (List.Perm.refl _)
    (by norm_num [startTimeStrictSorted, NeutralAtomOperation.start_time])
    (by norm_num [startTimeStrictSorted, NeutralAtomOperation.start_time])

/-! ## C6 — the three thresholds are strict -/

/-- C6: all three physical thresholds are strict comparisons.  A pair of
atoms at squared distance exactly `min_atom_distance²` produces no
`Collision` error in the register-geometry pass (`dist < min_dist`,
`validator.py:228`); a Rydberg gate at squared distance exactly
`blockade_radius²` produces no `BlockadeDistance` error
(`dist > blockade`, `validator.py:512`); a shuttle whose distance equals
`max_aod_velocity · duration` — velocity exactly at the limit — produces no
`VelocityExceeded` error (`velocity > max`, `validator.py:344`). -/
theorem thresholds_are_strict :
    (∀ (reg : NeutralAtomRegister) (a1 a2 : AtomPosition),
      reg.atoms = [a1, a2] →
      dist2 (a1.x, a1.y) (a2.x, a2.y) = reg.min_atom_distance ^ 2 →
      (validate_register_geometry reg).1 = []) ∧
    (∀ (reg : NeutralAtomRegister) (cur : PosMap) (idx c t : ℕ)
        (p1 p2 : ℚ × ℚ),
      dictGet? cur c = some p1 → dictGet? cur t = some p2 →
      dist2 p1 p2 = reg.blockade_radius ^ 2 →
      PhysicsConstraintErr.blockadeDistance c t ∉
        (validate_rydberg_gate reg cur idx c t).1) ∧
    (∀ (vmax : ℚ) (reg : NeutralAtomRegister) (cur : PosMap) (idx aid : ℕ)
        (du : ℚ) (p q : ℚ × ℚ),
      0 < du → dictGetD cur aid (0, 0) = p →
      dist2 q p = (vmax * (du / 1000)) ^ 2 →
      PhysicsConstraintErr.velocityExceeded aid ∉
        (validate_shuttle vmax reg cur idx [aid] du [q]).errors) := by
  refine ⟨?_, ?_, ?_⟩
  · rintro reg a1 a2 hatoms hd
    simp only [validate_register_geometry, hatoms, geometryPairs,
      geometryPairAgainst, hd]
    rw [if_neg (lt_irrefl _)]
    split <;> simp
  · rintro reg cur idx c t p1 p2 h1 h2 hd
    simp only [validate_rydberg_gate, h1, h2, hd]
    rw [if_neg (lt_irrefl _)]
    split <;> simp
  · rintro vmax reg cur idx aid du p q hdu hget hd
    have hdu2 : (0 : ℚ) < du / 1000 := by positivity
    simp only [validate_shuttle, List.mem_append, not_or]
    refine ⟨⟨?_, ?_⟩, ?_⟩
    · by_cases hrole :
          pyFind? (fun a => a.id = aid ∧ a.role = TrapRole.AOD) reg.atoms
            = none
      · simp [shuttleAtomsLoop, hrole]
      · simp only [List.zip_cons_cons, List.zip_nil_right, shuttleAtomsLoop,
          hrole, if_false, hget, hd, if_pos hdu2,
          decide_eq_false (lt_irrefl ((vmax * (du / 1000)) ^ 2))]
        simp
    · intro hmem
      have hcase := Option.mem_toList.mp hmem
      rcases check_topological_constraint_shape hcase with he | he <;>
        simp at he
    · intro hmem
      obtain ⟨i, j, he⟩ := shuttleCollisionCheck_shape hmem
      simp at he

/-- C6 witness: atoms exactly 4 µm apart with `min_atom_distance = 4`, a
gate at exactly 8 µm with `blockade_radius = 8`, and a 55 µm shuttle over
100 µs at exactly `0.55 µm/µs`. -/
theorem thresholds_are_strict_witness :
    ((validate_register_geometry
        { min_atom_distance := 4, blockade_radius := 8,
          atoms := [⟨0, 0, 0, .SLM, none, none⟩, ⟨1, 4, 0, .SLM, none, none⟩],
          zones := none }).1 = []) ∧
    (PhysicsConstraintErr.blockadeDistance 0 1 ∉
      (validate_rydberg_gate
        { min_atom_distance := 4, blockade_radius := 8,
          atoms := [⟨0, 0, 0, .SLM, none, none⟩, ⟨1, 8, 0, .SLM, none, none⟩],
          zones := none }
        [(0, (0, 0)), (1, (8, 0))] 0 0 1).1) ∧
    (PhysicsConstraintErr.velocityExceeded 2 ∉
      (validate_shuttle (55 / 100)
        { min_atom_distance := 4, blockade_radius := 8,
          atoms := [⟨2, 0, 0, .AOD, some 0, some 0⟩], zones := none }
        [(2, (0, 0))] 0 [2] 100000 [(55, 0)]).errors) :=
  ⟨thresholds_are_strict.1 _ ⟨0, 0, 0, .SLM, none, none⟩
      ⟨1, 4, 0, .SLM, none, none⟩ rfl (by norm_num [dist2]),
   thresholds_are_strict.2.1 _ [(0, (0, 0)), (1, (8, 0))] 0 0 1 (0, 0) (8, 0)
      (by norm_num [dictGet?, pyFind?]) (by norm_num [dictGet?, pyFind?])
      (by norm_num [dist2]),
   thresholds_are_strict.2.2 (55 / 100) _ [(2, (0, 0))] 0 2 100000 (0, 0)
      (55, 0) (by norm_num) (by norm_num [dictGetD, dictGet?, pyFind?])
      (by norm_num [dist2])⟩

/-! ## C8 — GlobalPulse zone warnings -/

/-- C8 (amended): the zone check for a `GlobalPulse` emits no errors and at
most one warning — a single `PULSE_IN_SHIELDED_ZONE` (high) warning, or a
single `PULSE_IN_STORAGE_ZONE` (medium) warning, or nothing.  It never emits
one warning per atom and never emits both kinds: when any storage atom sits
in a shielding zone (`validator.py:577`), only the shielded warning appears,
whatever the other storage atoms' zones are. -/
theorem global_pulse_zone_warning_shape (reg : NeutralAtomRegister)
    (cur : PosMap) (idx : ℕ) :
    validate_global_pulse_zones reg cur idx = ([], []) ∨
    (∃ atoms, validate_global_pulse_zones reg cur idx =
      ([], [{ code := .PULSE_IN_SHIELDED_ZONE, severity := .high,
              operation_index := some idx, atoms := atoms }])) ∨
    ∃ atoms, validate_global_pulse_zones reg cur idx =
      ([], [{ code := .PULSE_IN_STORAGE_ZONE, severity := .medium,
              operation_index := some idx, atoms := atoms }]) := by
  simp only [validate_global_pulse_zones]
  split
  · exact .inl rfl
  · split_ifs with h1 h2 h3
    · exact .inl rfl
    · exact .inl rfl
    · exact .inr (.inr ⟨_, rfl⟩)
    · exact .inr (.inl ⟨_, rfl⟩)

/-- C8: the claim fails on the code in the mixed case.  In
`mixedStorageJob`, atom 0 sits in a shielded STORAGE zone and atom 1 in an
unshielded STORAGE zone, yet validation emits exactly one warning —
`PULSE_IN_SHIELDED_ZONE` listing only atom 0 — and no
`PULSE_IN_STORAGE_ZONE` warning for atom 1, where the claim requires
warnings of both kinds. -/
theorem mixed_storage_zones_emit_single_warning :
    (validate_job mixedStorageJob true).warnings.map
        (fun w => (w.code, w.atoms)) =
      [(WarningCode.PULSE_IN_SHIELDED_ZONE, [0])] ∧
    (mixedStorageJob.register.get_zone_at_position 25 5).map
        (fun z => (z.zone_type, z.shielding_light)) =
      some (ZoneType.STORAGE, false) := by
  constructor <;>
    norm_num [validate_job, PulserValidator.validate, mixedStorageJob,
      validate_register_geometry, geometryPairs, geometryPairAgainst, dist2,
      validateWalk, validate_operation, validate_global_pulse_zones,
      NeutralAtomRegister.get_zones_by_type,
      NeutralAtomRegister.get_zone_at_position, ZoneDefinition.contains_point,
      dictUpdate, dictGet?, dictGetD, pyFind?, pyFilter, pyFilterMap,
      slm_ne_aod, check_temporal_overlaps, overlapIntervals,
      opOverlapDuration, isShuttle, overlapPairs, overlapAgainst]

/-! ## C10 — unconditional position commits -/

/-- C10: after each operation, `validate` updates `current_positions` with
every `(atom_id, target_pos)` pair of a `ShuttleMove` unconditionally
(`validator.py:195-199`): the position map threaded through the walk equals
`commitShuttles`, a fold defined with no reference to any check or error.
Concretely, in `slmShuttleThenGateJob` the shuttle of the static atom 1 is
reported as a hard role error, yet atom 1's position still moves to
`(20, 0)`, so the later gate is checked at distance 20 µm and fails the
blockade check — the gate error exists only because the erroring shuttle
committed. -/
theorem shuttle_positions_committed_unconditionally :
    (∀ (vmax : ℚ) (reg : NeutralAtomRegister)
        (ops : List NeutralAtomOperation) (cur : PosMap) (i : ℕ),
      (validateWalk vmax reg ops cur i).positions = commitShuttles ops cur) ∧
    (validate_job slmShuttleThenGateJob true).errors =
      [.notAodAtom 1, .blockadeDistance 0 1] := by
  constructor
  · intro vmax reg ops
    induction ops with
    | nil => intro cur i; rfl
    | cons op rest ih =>
        intro cur i
        cases op <;> simp [validateWalk, commitShuttles, ih]
  · norm_num [validate_job, PulserValidator.validate, slmShuttleThenGateJob,
      validate_register_geometry, geometryPairs, geometryPairAgainst, dist2,
      validateWalk, validate_operation, validate_shuttle, shuttleAtomsLoop,
      validate_rydberg_gate, check_topological_constraint,
      shuttleCollisionCheck, dictUpdate, dictGet?, dictGetD, dictOfZip,
      stableInsert, sortByKey, pyFind?, pyFilter, pyFilterMap, slm_ne_aod,
      Option.some_ne_none, AtomLossModel.calculate_loss_probability,
      check_temporal_overlaps, overlapIntervals, opOverlapDuration,
      isShuttle, overlapPairs, overlapAgainst]

/-! ## C5 — router determinism under a fixed draw stream -/

/-- The per-edge loop reads exactly the draws at `[c, c + edges.length)`. -/
theorem edgeLoop_congr (avg p : ℚ) (s₁ s₂ : ℕ → ℚ) :
    ∀ (edges : List (ℕ × ℕ × ℕ)) (c : ℕ),
      (∀ i, i < edges.length → s₁ (c + i) = s₂ (c + i)) →
      edgeLoop avg p s₁ edges c = edgeLoop avg p s₂ edges c := by
  intro edges
  induction edges with
  | nil => intro c _; rfl
  | cons e rest ih =>
      intro c h
      obtain ⟨u, v, w⟩ := e
      have h0 : s₁ c = s₂ c := by simpa using h 0 (by simp)
      have hr : ∀ i, i < rest.length → s₁ (c + 1 + i) = s₂ (c + 1 + i) := by
        intro i hi
        have := h (i + 1) (by simpa using Nat.succ_lt_succ hi)
        rw [show c + (i + 1) = c + 1 + i by ring] at this
        exact this
      simp [edgeLoop, ih (c + 1) hr, h0]

/-- C5: the router is a deterministic function of its inputs and the global
RNG draw stream.  `optimize_mapping` takes no seed parameter; its
randomness is the module-level `random` stream, so fixing the seed fixes
the draws, and two calls on the same graph, grid and draw prefix return
identical cost breakdowns (`{total_distance, aod_conflicts, total_cost}`
from `_calculate_physics_cost`) and identical result dicts.  The hypothesis
says the two streams agree on the window the call consumes:
`sample_consumed` draws for `random.sample`, then one conflict draw per
edge for each of the two modes. -/
theorem router_deterministic_under_fixed_stream (width height : ℚ)
    (edges : List (ℕ × ℕ × ℕ)) (sample_consumed : ℕ) (s₁ s₂ : ℕ → ℚ)
    (c : ℕ)
    (h : ∀ i, i < sample_consumed + 2 * edges.length →
      s₁ (c + i) = s₂ (c + i)) :
    (∀ mode : Bool,
      calculate_physics_cost width height edges mode sample_consumed s₁ c =
        calculate_physics_cost width height edges mode sample_consumed s₂ c) ∧
    optimize_mapping width height edges sample_consumed s₁ c =
      optimize_mapping width height edges sample_consumed s₂ c := by
  have hrand : edgeLoop ((width + height) / (5 / 2)) (3 / 10) s₁ edges
      (c + sample_consumed) = edgeLoop ((width + height) / (5 / 2)) (3 / 10)
      s₂ edges (c + sample_consumed) := by
    apply edgeLoop_congr
    intro i hi
    have := h (sample_consumed + i) (by omega)
    rw [show c + (sample_consumed + i) = c + sample_consumed + i by ring]
      at this
    exact this
  have hspec0 : edgeLoop (9 / 5) (5 / 100) s₁ edges c =
      edgeLoop (9 / 5) (5 / 100) s₂ edges c := by
    apply edgeLoop_congr
    intro i hi
    exact h i (by omega)
  have hspec1 : edgeLoop (9 / 5) (5 / 100) s₁ edges
      (c + sample_consumed + edges.length) =
      edgeLoop (9 / 5) (5 / 100) s₂ edges
      (c + sample_consumed + edges.length) := by
    apply edgeLoop_congr
    intro i hi
    have := h (sample_consumed + edges.length + i) (by omega)
    rw [show c + (sample_consumed + edges.length + i) =
      c + sample_consumed + edges.length + i by ring] at this
    exact this
  refine ⟨fun mode => ?_, ?_⟩
  · cases mode <;> simp [calculate_physics_cost, hrand, hspec0]
  · simp [optimize_mapping, calculate_physics_cost, hrand, hspec1]

/-- C5 witness: two streams that agree on the consumed window give the same
router output on a one-edge graph. -/
theorem router_deterministic_witness :
    optimize_mapping 20 20 [(0, 1, 1)] 1 (fun _ => 0) 0 =
      optimize_mapping 20 20 [(0, 1, 1)] 1
        (fun i => if i < 10 then 0 else 1) 0 :=
  (router_deterministic_under_fixed_stream 20 20 [(0, 1, 1)] 1
    (fun _ => 0) (fun i => if i < 10 then 0 else 1) 0
    (fun i hi => by
      simp only [List.length_cons, List.length_nil] at hi
      show (0 : ℚ) = if 0 + i < 10 then 0 else 1
      rw [if_pos (by omega)])).2

/-! ## C4 — the benchmark loop's `NameError` -/

/-- With the names actually bound in `server.py`, the very first loop cycle
raises `NameError` at `math.exp` (`server.py:337`) before emitting any
telemetry. -/
theorem simLoop_first_cycle_error (flag : ℕ → Bool) (total : ℕ)
    (ld hd cd : ℕ → ℝ) (cycle : ℕ) (rest : List ℕ) (st : SimState)
    (hflag : flag cycle = true) :
    simLoop serverBoundNames flag total ld hd cd (cycle :: rest) st =
      ([], .errored (.nameError "math")) := by
  have hmath : "math" ∉ serverBoundNames := by decide
  simp [simLoop, hflag, cycleStep, hmath]

/-- C4: the claim is what `server.py` plainly intends but the code breaks
it twice over.  `simulate_benchmark_execution` uses `math.exp` without
importing `math`, so every run whose first cycle starts raises `NameError`
— no RUNNING frame is ever sent; and the exception escapes the coroutine to
the WebSocket handler's generic `except Exception` (`server.py:508-510`),
which logs and disconnects without sending any frame, so the client's last
frame is CONNECTING, never a terminal `status=ERROR` frame. -/
theorem benchmark_error_never_reaches_client (bt : String) (flag : ℕ → Bool)
    (raw : ℕ) (ld hd cd : ℕ → ℝ) (hbt : bt ∈ ALLOWED_BENCHMARK_TYPES)
    (hflag : flag 1 = true) :
    (simulate_benchmark_execution serverBoundNames bt flag raw ld hd cd).2 =
      .error (.nameError "math") ∧
    (simulate_benchmark_execution serverBoundNames bt flag raw ld hd cd).1 =
      [] ∧
    ∀ f ∈ websocket_benchmark_frames serverBoundNames bt flag raw ld hd cd,
      f.status ≠ TStatus.ERROR := by
  have htot : 0 < max 1 (min raw 1000) :=
    Nat.lt_of_lt_of_le Nat.zero_lt_one (Nat.le_max_left _ _)
  have hsim : simulate_benchmark_execution serverBoundNames bt flag raw ld
      hd cd = ([], .error (.nameError "math")) := by
    simp only [simulate_benchmark_execution]
    rw [if_neg (not_not_intro hbt)]
    rw [show max 1 (min raw 1000) = (max 1 (min raw 1000) - 1) + 1 from
      (Nat.succ_pred_eq_of_pos htot).symm]
    rw [show List.range' 1 ((max 1 (min raw 1000) - 1) + 1) =
      1 :: List.range' 2 (max 1 (min raw 1000) - 1) from rfl]
    rw [simLoop_first_cycle_error flag _ ld hd cd 1 _ initSimState hflag]
  refine ⟨by rw [hsim], by rw [hsim], ?_⟩
  intro f hf
  unfold websocket_benchmark_frames at hf
  rw [hsim] at hf
  simp only [List.mem_singleton] at hf
  rw [hf]
  simp [connectingFrame]

/-! ## C9 — telemetry frame bounds -/

/-- `round(x, n)` of a nonnegative value is nonnegative. -/
theorem pyRoundR_nonneg (n : ℕ) {x : ℝ} (hx : 0 ≤ x) : 0 ≤ pyRoundR n x := by
  unfold pyRoundR
  apply div_nonneg _ (by positivity)
  have h : (0 : ℤ) ≤ round (x * 10 ^ n) := by
    rw [round_eq]
    apply Int.le_floor.mpr
    have h2 : (0 : ℝ) ≤ x * 10 ^ n := by positivity
    push_cast
    linarith
  exact_mod_cast h

/-- `round(x, n)` of a value at most one is at most one. -/
theorem pyRoundR_le_one (n : ℕ) {x : ℝ} (hx : x ≤ 1) : pyRoundR n x ≤ 1 := by
  unfold pyRoundR
  rw [div_le_one (by positivity)]
  have h10 : (0 : ℝ) < 10 ^ n := by positivity
  have h1 : round (x * 10 ^ n) ≤ round ((10 : ℝ) ^ n) := by
    rw [round_eq, round_eq]
    apply Int.floor_mono
    nlinarith
  have h2 : round ((10 : ℝ) ^ n) = (10 : ℤ) ^ n := by
    have hc : (((10 : ℤ) ^ n : ℤ) : ℝ) = (10 : ℝ) ^ n := by push_cast; ring
    rw [← hc, round_intCast]
  rw [h2] at h1
  calc (round (x * 10 ^ n) : ℝ) ≤ (((10 : ℤ) ^ n : ℤ) : ℝ) := by
        exact_mod_cast h1
    _ = 10 ^ n := by push_cast; ring

/-- One successful cycle preserves the state invariant and produces a
bounded RUNNING frame. -/
theorem cycleStep_invariant {names : List String} {total cycle : ℕ}
    {st : SimState} {ld hd cd : ℝ} {st' : SimState}
    {frame : TelemetryPayload}
    (hstep : cycleStep names total cycle st ld hd cd = .ok (st', frame))
    (hinv : SimInv st) (hhd1 : -(1 / 10) ≤ hd)
    (hcd1 : 9 / 10 ≤ cd) (hcy1 : 1 ≤ cycle) (hcyT : cycle ≤ total) :
    SimInv st' ∧ goodFrame frame := by
  obtain ⟨hn0, hn1, hf0, hf1, hq0⟩ := hinv
  simp only [cycleStep] at hstep
  split at hstep
  case isFalse => exact absurd hstep (by simp)
  case isTrue hmem =>
  rw [Except.ok.injEq, Prod.mk.injEq] at hstep
  obtain ⟨hst, hfr⟩ := hstep
  subst hst
  subst hfr
  have hheat0 : 0 ≤ st.n_vib + 5 / 100 * (1 + hd) := by nlinarith
  have hnv : 0 ≤ (if 3 / 2 < st.n_vib + 5 / 100 * (1 + hd) then (1 : ℝ) / 10
        else st.n_vib + 5 / 100 * (1 + hd)) ∧
      (if 3 / 2 < st.n_vib + 5 / 100 * (1 + hd) then (1 : ℝ) / 10
        else st.n_vib + 5 / 100 * (1 + hd)) ≤ 3 / 2 := by
    split
    · norm_num
    · exact ⟨hheat0, by linarith [not_lt.mp (by assumption)]⟩
  have hfid0 : 0 ≤ st.fidelity *
      (1 - 1 / 10000 * (if 3 / 2 < st.n_vib + 5 / 100 * (1 + hd)
        then (1 : ℝ) / 10 else st.n_vib + 5 / 100 * (1 + hd))) := by
    apply mul_nonneg hf0
    nlinarith [hnv.1, hnv.2]
  have hfid1 : st.fidelity *
      (1 - 1 / 10000 * (if 3 / 2 < st.n_vib + 5 / 100 * (1 + hd)
        then (1 : ℝ) / 10 else st.n_vib + 5 / 100 * (1 + hd))) ≤ 1 := by
    nlinarith [hnv.1, hnv.2]
  have hcap : 0 < 10 * Real.exp (-(4 / 10 *
      ((if 30 < cycle then 7 else if 15 < cycle then 5 else 3 : ℕ) : ℝ)))
      * cd := by
    apply mul_pos (mul_pos (by norm_num) (Real.exp_pos _))
    linarith
  have hq' : 0 ≤ st.syndrome_queue + 1 -
      min (st.syndrome_queue + 1) (10 * Real.exp (-(4 / 10 *
        ((if 30 < cycle then 7 else if 15 < cycle then 5 else 3 : ℕ) : ℝ)))
        * cd) :=
    sub_nonneg.mpr (min_le_left _ _)
  have htotpos : (0 : ℝ) < (total : ℝ) := by
    have h1 : (1 : ℝ) ≤ (total : ℝ) := by exact_mod_cast hcy1.trans hcyT
    linarith
  have hperc0 : (0 : ℝ) ≤ 100 * (cycle : ℝ) / (total : ℝ) := by positivity
  have hperc1 : 100 * (cycle : ℝ) / (total : ℝ) ≤ 100 := by
    have hct : (cycle : ℝ) ≤ (total : ℝ) := by exact_mod_cast hcyT
    rw [mul_div_assoc]
    nlinarith [div_le_one_of_le₀ hct (le_of_lt htotpos)]
  have hlat : ∀ cap : ℝ, 0 < cap →
      0 ≤ (if st.syndrome_queue + 1 - min (st.syndrome_queue + 1) cap
          < 1 / 100 then 1 / cap * 20
        else (st.syndrome_queue + 1 - min (st.syndrome_queue + 1) cap) /
          cap * 20) := by
    intro cap hc
    have hqq : 0 ≤ st.syndrome_queue + 1 - min (st.syndrome_queue + 1) cap :=
      sub_nonneg.mpr (min_le_left _ _)
    split
    · exact le_of_lt (mul_pos (one_div_pos.mpr hc) (by norm_num))
    · exact mul_nonneg (div_nonneg hqq (le_of_lt hc)) (by norm_num)
  exact ⟨⟨hnv.1, hnv.2, hfid0, hfid1, hq'⟩,
    hperc0, hperc1, pyRoundR_nonneg 6 hfid0, pyRoundR_le_one 6 hfid1,
    pyRoundR_nonneg 3 hnv.1, Int.natCast_nonneg _,
    pyRoundR_nonneg 2 (hlat _ hcap)⟩

/-- Frames emitted by the cycle loop with RUNNING status are bounded, and a
normally finished loop hands back an invariant-satisfying state. -/
theorem simLoop_frames_bounded (names : List String) (flag : ℕ → Bool)
    (total : ℕ) (ld hd cd : ℕ → ℝ)
    (hhd : ∀ i, -(1 / 10) ≤ hd i) (hcd : ∀ i, 9 / 10 ≤ cd i) :
    ∀ (cycles : List ℕ) (st : SimState), SimInv st →
      (∀ cyc ∈ cycles, 1 ≤ cyc ∧ cyc ≤ total) →
      (∀ f ∈ (simLoop names flag total ld hd cd cycles st).1,
        f.status = .RUNNING ∨ f.status = .COMPLETED → goodFrame f) ∧
      ∀ st', (simLoop names flag total ld hd cd cycles st).2 =
        .finished st' → SimInv st' := by
  intro cycles
  induction cycles with
  | nil =>
      intro st hinv _
      refine ⟨fun f hf => absurd hf (by simp [simLoop]), fun st' hst' => ?_⟩
      simp only [simLoop, LoopExit.finished.injEq] at hst'
      rw [← hst']
      exact hinv
  | cons cyc rest ih =>
      intro st hinv hcyc
      by_cases hflag : flag cyc = true
      · rcases hstep : cycleStep names total cyc st (ld cyc) (hd cyc)
          (cd cyc) with e | pr
        · refine ⟨fun f hf => ?_, fun st' hst' => ?_⟩
          · exact absurd hf (by simp [simLoop, hflag, hstep])
          · rw [show (simLoop names flag total ld hd cd (cyc :: rest)
              st).2 = .errored e by simp [simLoop, hflag, hstep]] at hst'
            exact absurd hst' (by simp)
        · obtain ⟨st1, frame⟩ := pr
          have hcy := hcyc cyc (List.mem_cons_self _ _)
          obtain ⟨hinv1, hgood⟩ := cycleStep_invariant hstep hinv
            (hhd cyc) (hcd cyc) hcy.1 hcy.2
          obtain ⟨ihf, ihs⟩ := ih st1 hinv1
            (fun c hc => hcyc c (List.mem_cons_of_mem _ hc))
          refine ⟨fun f hf hstat => ?_, fun st' hst' => ?_⟩
          · rw [show (simLoop names flag total ld hd cd (cyc :: rest)
                st).1 = frame :: (simLoop names flag total ld hd cd rest
                st1).1 by simp [simLoop, hflag, hstep]] at hf
            rcases List.mem_cons.mp hf with rfl | hf
            · exact hgood
            · exact ihf f hf hstat
          · rw [show (simLoop names flag total ld hd cd (cyc :: rest)
              st).2 = (simLoop names flag total ld hd cd rest st1).2 by
              simp [simLoop, hflag, hstep]] at hst'
            exact ihs st' hst'
      · have hflag2 : flag cyc = false := by
          cases hq : flag cyc
          · rfl
          · exact absurd hq hflag
        refine ⟨fun f hf hstat => ?_, fun st' hst' => ?_⟩
        · rw [show (simLoop names flag total ld hd cd (cyc :: rest)
            st).1 = [⟨.STOPPED, 100 * (cyc : ℝ) / (total : ℝ), cyc,
              st.total_atoms_lost, st.n_vib, st.fidelity, 0⟩] by
              simp [simLoop, hflag2]] at hf
          simp only [List.mem_singleton] at hf
          rw [hf] at hstat
          rcases hstat with h | h <;> exact absurd h (by simp)
        · rw [show (simLoop names flag total ld hd cd (cyc :: rest)
            st).2 = .stopped by simp [simLoop, hflag2]] at hst'
          exact absurd hst' (by simp)

/-- C9: every telemetry frame the benchmark simulation emits with status
RUNNING or COMPLETED has `percentage ∈ [0, 100]`, `fidelity ∈ [0, 1]`,
`n_vib ≥ 0`, `atoms_lost ≥ 0` and `decoder_backlog_ms ≥ 0`, for every
requested cycle count (the loop clamps it to `[1, 1000]`) and every draw of
the per-cycle randomness within the ranges `random.uniform` produces. -/
theorem telemetry_frames_bounded (names : List String) (bt : String)
    (flag : ℕ → Bool) (raw : ℕ) (ld hd cd : ℕ → ℝ)
    (hhd : ∀ i, -(1 / 10) ≤ hd i ∧ hd i ≤ 1 / 10)
    (hcd : ∀ i, 9 / 10 ≤ cd i ∧ cd i ≤ 11 / 10) :
    ∀ f ∈ (simulate_benchmark_execution names bt flag raw ld hd cd).1,
      f.status = .RUNNING ∨ f.status = .COMPLETED → goodFrame f := by
  intro f hf hstat
  simp only [simulate_benchmark_execution] at hf
  split at hf
  · exact absurd hf (by simp)
  · have htot1 : 1 ≤ max 1 (min raw 1000) := Nat.le_max_left _ _
    have hcycs : ∀ cyc ∈ List.range' 1 (max 1 (min raw 1000)),
        1 ≤ cyc ∧ cyc ≤ max 1 (min raw 1000) := by
      intro cyc hc
      rw [List.mem_range'_1] at hc
      omega
    have hinit : SimInv initSimState := by
      norm_num [SimInv, initSimState]
    obtain ⟨hframes, hfin⟩ := simLoop_frames_bounded names flag
      (max 1 (min raw 1000)) ld hd cd (fun i => (hhd i).1)
      (fun i => (hcd i).1) (List.range' 1 (max 1 (min raw 1000)))
      initSimState hinit hcycs
    rcases hloop : simLoop names flag (max 1 (min raw 1000)) ld hd cd
      (List.range' 1 (max 1 (min raw 1000))) initSimState with ⟨frames, ex⟩
    rw [hloop] at hframes hfin hf
    cases ex with
    | finished stf =>
        have hstf : SimInv stf := hfin stf rfl
        simp only [List.mem_append, List.mem_singleton] at hf
        rcases hf with hf | hf
        · exact hframes f hf hstat
        · rw [hf]
          refine ⟨by norm_num, by norm_num, ?_, ?_, ?_, ?_, ?_⟩
          · exact pyRoundR_nonneg 6 hstf.2.2.1
          · exact pyRoundR_le_one 6 hstf.2.2.2.1
          · exact pyRoundR_nonneg 3 hstf.1
          · positivity
          · norm_num
    | stopped => exact hframes f hf hstat
    | errored e => exact hframes f hf hstat

/-- C9 witness: the bounds at a concrete instantiation (with `math`
importable, one cycle, run flag set, central draws). -/
theorem telemetry_frames_bounded_witness :
    List.Forall
      (fun f => f.status = TStatus.RUNNING ∨ f.status = TStatus.COMPLETED →
        goodFrame f)
      (simulate_benchmark_execution ["math"] "velocity_fidelity"
        (fun _ => true) 1 (fun _ => (1 : ℝ) / 2) (fun _ => 0)
        (fun _ => 1)).1 :=
  List.forall_iff_forall_mem.mpr
    (telemetry_frames_bounded ["math"] "velocity_fidelity" (fun _ => true) 1
      (fun _ => (1 : ℝ) / 2) (fun _ => 0) (fun _ => 1)
      (fun _ => by norm_num) (fun _ => by norm_num))

/-- C4 witness: a concrete run (valid benchmark type, flag set) in which the
simulation errors out and the client never sees an ERROR frame. -/
theorem benchmark_error_never_reaches_client_witness :
    (simulate_benchmark_execution serverBoundNames "velocity_fidelity"
        (fun _ => true) 50 (fun _ => (1 : ℝ) / 2) (fun _ => 0)
        (fun _ => 1)).2 = .error (.nameError "math") ∧
    (simulate_benchmark_execution serverBoundNames "velocity_fidelity"
        (fun _ => true) 50 (fun _ => (1 : ℝ) / 2) (fun _ => 0)
        (fun _ => 1)).1 = [] ∧
    ∀ f ∈ websocket_benchmark_frames serverBoundNames "velocity_fidelity"
        (fun _ => true) 50 (fun _ => (1 : ℝ) / 2) (fun _ => 0)
        (fun _ => 1),
      f.status ≠ TStatus.ERROR :=
  benchmark_error_never_reaches_client "velocity_fidelity" (fun _ => true)
    50 (fun _ => (1 : ℝ) / 2) (fun _ => 0) (fun _ => 1) (by decide) rfl

end QuantumNavigator
